import Mathlib

/-!
Verification of the Route primitive and evalengine arithmetic of a
distributed SQL query-routing layer, against its specification.

The Go sources embedded here:
  - `go/vt/vtgate/evalengine/arithmetic.go` (arithmetic, comparison,
    coercion, hashing),
  - the Route executor (`engine/route.go`): opcode dispatch, shard
    parameter fan-out, scatter error handling, and the blocking sort.

Modelling conventions:
  - machine integers are `Nat`/`Int` with explicit wrapping at 2^64
    (`toUint64` / `toInt64` are Go's `uint64(x)` / `int64(x)` casts);
  - IEEE-754 `float64` is an abstract type packaged in the `Env`
    structure together with the injected collation service and the other
    external capabilities; theorems quantify over the `Env`, witnesses
    instantiate it with a concrete executable model;
  - the spec blesses splitting the bit-packed `numval` into a
    discriminated representation ("a clean port may use a discriminated
    numeric sum"), so `EvalResult` stores integer bits in `numval` and
    floats in `fval`;
  - fallible Go functions returning `(T, error)` become `Except Err T`;
    functions meaningfully returning both a value and an error (the
    route sort, `executeInternal`) return a pair.
-/

/-- The wrap modulus of 64-bit machine integers. -/
def U64 : Nat := 2 ^ 64

/-- Go's `uint64(i)` cast of a (possibly negative) integer: two's-complement bits. -/
def toUint64 (i : Int) : Nat := (i % (2 ^ 64 : Int)).toNat

/-- Go's `int64(n)` reinterpretation of 64-bit unsigned bits. -/
def toInt64 (n : Nat) : Int :=
  if n % U64 < 2 ^ 63 then ((n % U64 : Nat) : Int) else ((n % U64 : Nat) : Int) - 2 ^ 64

/-- Go's `uint64(-v)` for an int64 with bits `n`: negation in the wrapped domain. -/
def negUint64 (n : Nat) : Nat := (U64 - n % U64) % U64

/-- Accumulate decimal digits, failing on a non-digit (helper of the strconv model). -/
def digitsToNatGo : List Char → Nat → Option Nat
  | [], acc => some acc
  | c :: cs, acc => if c.isDigit then digitsToNatGo cs (acc * 10 + (c.toNat - 48)) else none

/-- A non-empty all-digit run parsed as a natural number. -/
def digitsToNat (cs : List Char) : Option Nat :=
  if cs.isEmpty then none else digitsToNatGo cs 0

/-- Model of Go `strconv.ParseUint(s, 10, 64)`: digits only, range-checked. -/
def parseUint64 (s : String) : Option Nat :=
  match digitsToNat s.data with
  | some n => if n < U64 then some n else none
  | none => none

/-- Model of Go `strconv.ParseInt(s, 10, 64)`: optional sign, digits, int64 range. -/
def parseInt64 (s : String) : Option Int :=
  match s.data with
  | '+' :: rest =>
    match digitsToNat rest with
    | some n => if n ≤ 2 ^ 63 - 1 then some (n : Int) else none
    | none => none
  | '-' :: rest =>
    match digitsToNat rest with
    | some n => if n ≤ 2 ^ 63 then some (-(n : Int)) else none
    | none => none
  | _ =>
    match digitsToNat s.data with
    | some n => if n ≤ 2 ^ 63 - 1 then some (n : Int) else none
    | none => none

/-- The SQL type tags of the value model (the `querypb.Type` universe used here). -/
inductive SQLType where
  | Null
  | Int8 | Int16 | Int24 | Int32 | Int64
  | Uint8 | Uint16 | Uint24 | Uint32 | Uint64 | Year
  | Float32 | Float64 | Decimal
  | Timestamp | Date | Time | Datetime
  | Text | VarChar | Char
  | Binary | VarBinary | Blob
  | Enum | Set | Json | Bit
  deriving DecidableEq, Repr, Fintype

/-- Model of `sqltypes.IsNull`. -/
def SQLType.IsNull (t : SQLType) : Bool := t = .Null

/-- Model of `sqltypes.IsSigned`: the signed integral types. -/
def SQLType.IsSigned : SQLType → Bool
  | .Int8 | .Int16 | .Int24 | .Int32 | .Int64 => true
  | _ => false

/-- Model of `sqltypes.IsUnsigned`: the unsigned integral types (Year is unsigned). -/
def SQLType.IsUnsigned : SQLType → Bool
  | .Uint8 | .Uint16 | .Uint24 | .Uint32 | .Uint64 | .Year => true
  | _ => false

/-- Model of `sqltypes.IsIntegral`. -/
def SQLType.IsIntegral (t : SQLType) : Bool := t.IsSigned || t.IsUnsigned

/-- Model of `sqltypes.IsFloat`. -/
def SQLType.IsFloat : SQLType → Bool
  | .Float32 | .Float64 => true
  | _ => false

/-- Model of `sqltypes.IsNumber`: integral, float, or decimal. -/
def SQLType.IsNumber (t : SQLType) : Bool := t.IsIntegral || t.IsFloat || t = .Decimal

/-- Model of `sqltypes.IsText`: the textual character types. -/
def SQLType.IsText : SQLType → Bool
  | .Text | .VarChar | .Char => true
  | _ => false

/-- Model of `sqltypes.IsBinary`: the raw byte types. -/
def SQLType.IsBinary : SQLType → Bool
  | .Binary | .VarBinary | .Blob => true
  | _ => false

/-- Model of `sqltypes.IsDate`: the temporal types. -/
def SQLType.IsDate : SQLType → Bool
  | .Timestamp | .Date | .Time | .Datetime => true
  | _ => false

/-- The error universe of the embedded code (vterrors / typed evalengine errors). -/
inductive Err where
  | dataOutOfRange (typ sign lhs rhs : String)
  | unsupportedComparison (t1 t2 : SQLType)
  | unsupportedCollation (id : Nat)
  | internal (msg : String)
  | unimplemented (msg : String)
  | unimplementedTypes (t1 t2 : SQLType)
  | shard (msg : String)
  | badDb (msg : String)
  | aggregated (msgs : List String)
  | wrapped (msg : String)
  deriving DecidableEq, Repr

/-- Render an error as its message string (used when errors are aggregated). -/
def Err.message : Err → String
  | .dataOutOfRange typ sign lhs rhs =>
    typ ++ " value is out of range in " ++ lhs ++ " " ++ sign ++ " " ++ rhs
  | .unsupportedComparison _ _ => "types are not comparable"
  | .unsupportedCollation _ => "cannot compare strings, collation is unknown or unsupported"
  | .internal msg => msg
  | .unimplemented msg => msg
  | .unimplementedTypes _ _ => "types does not support hashcode yet"
  | .shard msg => msg
  | .badDb msg => msg
  | .aggregated msgs => String.intercalate "\n" msgs
  | .wrapped msg => msg

/-- Whether an error carries the BadDb SQL state (vterrors.ErrState). -/
def Err.isBadDb : Err → Bool
  | .badDb _ => true
  | _ => false

/-- Whether an error is the DataOutOfRange kind (vterrors.DataOutOfRange code). -/
def Err.isDataOutOfRange : Err → Bool
  | .dataOutOfRange _ _ _ _ => true
  | _ => false

/-- Model of `dataOutOfRangeError(v1, v2, typ, sign)`. -/
def dataOutOfRangeError (v1 v2 : String) (typ sign : String) : Err :=
  .dataOutOfRange typ sign v1 v2

/-- An injected collation: comparison and hashing over raw bytes, with the
collation service's published contract that collation-equal byte strings hash
equally (spec: "collation's contract: collate(x,y)=0 ⇒ hash(x)=hash(y)"). -/
structure Collation where
  name : String
  collate : String → String → Bool → Int
  hash : String → Nat → Nat
  hashCoherent : ∀ x y s, collate x y false = 0 → hash x s = hash y s

/-- The bundle of external capabilities the evalengine consumes: an abstract
IEEE-754 float64 model (operations, conversions, parsing, the canonical
numeric encoding used for hashing with its spec contract), the collation
lookup service, the temporal parser, and the system-schema predicate. -/
structure Env where
  F : Type
  fzero : F
  fone : F
  fbeq : F → F → Bool
  fblt : F → F → Bool
  fadd : F → F → F
  fsub : F → F → F
  fmul : F → F → F
  fdiv : F → F → F
  fofInt : Int → F
  fofNat : Nat → F
  ftoInt : F → Int
  fbits : F → Nat
  fcanon : F → Nat
  fcanonCoherent : ∀ x y, fbeq x y = true → fcanon x = fcanon y
  ftoString : F → String
  fparse : String → Option F
  fparseLeading : String → Option F
  lookupCollation : Nat → Option Collation
  parseDateNano : SQLType → String → Except Err Int
  systemSchema : String → Bool

/-- The collations.Unknown sentinel identifier. -/
def collationUnknown : Nat := 0

/-- The SQL value model: a type tag and raw bytes (`sqltypes.Value`). -/
structure Value where
  typ : SQLType
  str : String
  deriving DecidableEq, Repr

/-- The NULL value (`sqltypes.NULL`). -/
def NULL : Value := ⟨.Null, ""⟩

/-- Model of `Value.IsNull`. -/
def Value.IsNull (v : Value) : Bool := v.typ.IsNull

/-- Model of `Value.IsSigned`. -/
def Value.IsSigned (v : Value) : Bool := v.typ.IsSigned

/-- Model of `Value.IsUnsigned`. -/
def Value.IsUnsigned (v : Value) : Bool := v.typ.IsUnsigned

/-- Model of `Value.IsFloat`. -/
def Value.IsFloat (v : Value) : Bool := v.typ.IsFloat

/-- Model of `Value.IsText`. -/
def Value.IsText (v : Value) : Bool := v.typ.IsText

/-- Model of `Value.IsBinary`. -/
def Value.IsBinary (v : Value) : Bool := v.typ.IsBinary

/-- Model of `Value.RawStr` / `Value.Raw`: the raw bytes. -/
def Value.RawStr (v : Value) : String := v.str

/-- Model of `Value.ToBytes` (total on this universe, which excludes Expression). -/
def Value.ToBytes (v : Value) : Except Err String := .ok v.str

/-- The evalengine's internal numeric representation (`EvalResult`). The Go
struct packs everything in one 64-bit `numval`; following the spec's blessing
of a discriminated port, integer bits live in `numval` and floats in `fval`. -/
structure EvalResult (e : Env) where
  typ : SQLType := .Null
  numval : Nat := 0
  fval : e.F := e.fzero
  bytes : String := ""
  collation : Nat := 0

/-- Model of `intPlusInt`: int64 addition promoting to Float64 on overflow. -/
def intPlusInt (e : Env) (v1u v2u : Nat) : EvalResult e :=
  let v1 := toInt64 v1u
  let v2 := toInt64 v2u
  let result := toInt64 (toUint64 (v1 + v2))
  if (0 < v1 && 0 < v2 && result < 0) || (v1 < 0 && v2 < 0 && 0 < result) then
    { typ := .Float64, fval := e.fadd (e.fofInt v1) (e.fofInt v2) }
  else
    { typ := .Int64, numval := toUint64 result }

/-- Model of `intPlusIntWithError`: checked int64 addition. -/
def intPlusIntWithError (e : Env) (v1u v2u : Nat) : Except Err (EvalResult e) :=
  let v1 := toInt64 v1u
  let v2 := toInt64 v2u
  let result := toInt64 (toUint64 (v1 + v2))
  if decide (v1 < result) != decide (0 < v2) then
    .error (dataOutOfRangeError (toString v1) (toString v2) "BIGINT" "+")
  else .ok { typ := .Int64, numval := toUint64 result }

/-- Model of `intMinusIntWithError`: checked int64 subtraction. -/
def intMinusIntWithError (e : Env) (v1u v2u : Nat) : Except Err (EvalResult e) :=
  let v1 := toInt64 v1u
  let v2 := toInt64 v2u
  let result := toInt64 (toUint64 (v1 - v2))
  if decide (result < v1) != decide (0 < v2) then
    .error (dataOutOfRangeError (toString v1) (toString v2) "BIGINT" "-")
  else .ok { typ := .Int64, numval := toUint64 result }

/-- Model of `intTimesIntWithError`: checked int64 multiplication (the check
divides the wrapped product back, with Go's truncated division). -/
def intTimesIntWithError (e : Env) (v1u v2u : Nat) : Except Err (EvalResult e) :=
  let v1 := toInt64 v1u
  let v2 := toInt64 v2u
  let result := toInt64 (toUint64 (v1 * v2))
  if v1 ≠ 0 && Int.tdiv result v1 ≠ v2 then
    .error (dataOutOfRangeError (toString v1) (toString v2) "BIGINT" "*")
  else .ok { typ := .Int64, numval := toUint64 result }

/-- Model of `uintMinusUintWithError`: uint64 subtraction, error when it wraps. -/
def uintMinusUintWithError (e : Env) (v1 v2 : Nat) : Except Err (EvalResult e) :=
  let result := (v1 % U64 + (U64 - v2 % U64)) % U64
  if v2 % U64 > v1 % U64 then
    .error (dataOutOfRangeError (toString v1) (toString v2) "BIGINT UNSIGNED" "-")
  else .ok { typ := .Uint64, numval := result }

/-- Model of `intMinusUintWithError`. -/
def intMinusUintWithError (e : Env) (v1u v2 : Nat) : Except Err (EvalResult e) :=
  let v1 := toInt64 v1u
  if v1 < 0 || v1 < toInt64 v2 then
    .error (dataOutOfRangeError (toString v1) (toString v2) "BIGINT UNSIGNED" "-")
  else uintMinusUintWithError e v1u v2

/-- Model of `uintPlusUint`: uint64 addition promoting to Float64 on wrap. -/
def uintPlusUint (e : Env) (v1 v2 : Nat) : EvalResult e :=
  let result := (v1 % U64 + v2 % U64) % U64
  if result < v2 % U64 then
    { typ := .Float64, fval := e.fadd (e.fofNat v1) (e.fofNat v2) }
  else { typ := .Uint64, numval := result }

/-- Model of `uintPlusInt`: delegates to `uintPlusUint` on the raw bits. -/
def uintPlusInt (e : Env) (v1 v2 : Nat) : EvalResult e := uintPlusUint e v1 v2

/-- Model of `uintPlusIntWithError`: checked uint64 + int64 addition. -/
def uintPlusIntWithError (e : Env) (v1 v2u : Nat) : Except Err (EvalResult e) :=
  let v2 := toInt64 v2u
  let result := (v1 % U64 + v2u % U64) % U64
  if (v2 < 0 && v1 % U64 < negUint64 v2u) ||
      (0 < v2 && (result < v1 % U64 || result < v2u % U64)) then
    .error (dataOutOfRangeError (toString v1) (toString v2) "BIGINT UNSIGNED" "+")
  else .ok { typ := .Uint64, numval := result }

/-- Model of `uintMinusIntWithError`. -/
def uintMinusIntWithError (e : Env) (v1 v2u : Nat) : Except Err (EvalResult e) :=
  let v2 := toInt64 v2u
  if toInt64 v1 < v2 && 0 < v2 then
    .error (dataOutOfRangeError (toString v1) (toString v2) "BIGINT UNSIGNED" "-")
  else if v2 < 0 then uintPlusIntWithError e v1 (negUint64 v2u)
  else uintMinusUintWithError e v1 v2u

/-- Model of `uintPlusUintWithError`: checked uint64 addition. -/
def uintPlusUintWithError (e : Env) (v1 v2 : Nat) : Except Err (EvalResult e) :=
  let result := (v1 % U64 + v2 % U64) % U64
  if result < v1 % U64 || result < v2 % U64 then
    .error (dataOutOfRangeError (toString v1) (toString v2) "BIGINT UNSIGNED" "+")
  else .ok { typ := .Uint64, numval := result }

/-- Model of `uintTimesUintWithError`: uint64 multiplication whose overflow
check only compares the wrapped product against the two operands. -/
def uintTimesUintWithError (e : Env) (v1 v2 : Nat) : Except Err (EvalResult e) :=
  let result := (v1 % U64 * (v2 % U64)) % U64
  if result < v2 % U64 || result < v1 % U64 then
    .error (dataOutOfRangeError (toString v1) (toString v2) "BIGINT UNSIGNED" "*")
  else .ok { typ := .Uint64, numval := result }

/-- Model of `uintTimesIntWithError`: rejects a negative signed operand and any
unsigned operand whose int64 reinterpretation is negative, then delegates. -/
def uintTimesIntWithError (e : Env) (v1 v2u : Nat) : Except Err (EvalResult e) :=
  let v2 := toInt64 v2u
  if v2 < 0 || toInt64 v1 < 0 then
    .error (dataOutOfRangeError (toString v1) (toString v2) "BIGINT UNSIGNED" "*")
  else uintTimesUintWithError e v1 v2u

/-- Model of `coerceToFloat`: read an EvalResult as a float64. -/
def coerceToFloat (e : Env) (v2 : EvalResult e) : e.F :=
  match v2.typ with
  | .Int64 => e.fofInt (toInt64 v2.numval)
  | .Uint64 => e.fofNat (v2.numval % U64)
  | _ => v2.fval

/-- Model of `floatPlusAny`. -/
def floatPlusAny (e : Env) (v1 : e.F) (v2 : EvalResult e) : EvalResult e :=
  { typ := .Float64, fval := e.fadd v1 (coerceToFloat e v2) }

/-- Model of `floatMinusAny`. -/
def floatMinusAny (e : Env) (v1 : e.F) (v2 : EvalResult e) : EvalResult e :=
  { typ := .Float64, fval := e.fsub v1 (coerceToFloat e v2) }

/-- Model of `floatTimesAny`. -/
def floatTimesAny (e : Env) (v1 : e.F) (v2 : EvalResult e) : EvalResult e :=
  { typ := .Float64, fval := e.fmul v1 (coerceToFloat e v2) }

/-- Model of `anyMinusFloat`. -/
def anyMinusFloat (e : Env) (v1 : EvalResult e) (v2 : e.F) : EvalResult e :=
  { typ := .Float64, fval := e.fsub (coerceToFloat e v1) v2 }

/-- Model of `floatDivideAnyWithError`: float division, rejected when the
divisor is below one and multiplying back misses the dividend. -/
def floatDivideAnyWithError (e : Env) (v1 : e.F) (v2 : EvalResult e) :
    Except Err (EvalResult e) :=
  let v2f := coerceToFloat e v2
  let result := e.fdiv v1 v2f
  let divisorLessThanOne := e.fblt v2f e.fone
  let resultMismatch := !e.fbeq (e.fmul v2f result) v1
  if divisorLessThanOne && resultMismatch then
    .error (.dataOutOfRange "BIGINT" "/" (e.ftoString v1) (e.ftoString v2f))
  else .ok { typ := .Float64, fval := result }

/-- Structural model of Go `strings.TrimSpace` on ASCII whitespace. -/
def trimLeftSpace : List Char -> List Char
  | [] => []
  | c :: cs => if c = ' ' || c = '\t' || c = '\n' || c = '\r' then trimLeftSpace cs else c :: cs

/-- Both-sided whitespace trim built from the one-sided pass. -/
def trimSpace (s : String) : String :=
  String.mk ((trimLeftSpace (trimLeftSpace s.data).reverse).reverse)

/-- Model of `parseStringToFloat`: trim blanks, parse the longest float
prefix of the bytes, yielding 0.0 on failure. -/
def parseStringToFloat (e : Env) (str : String) : e.F :=
  match e.fparseLeading (trimSpace str) with
  | some val => val
  | none => e.fzero

/-- Model of `makeFloat`. -/
def makeFloat (e : Env) (v : EvalResult e) : EvalResult e :=
  if v.typ.IsIntegral then { typ := .Float64, fval := e.fofInt (toInt64 v.numval) }
  else if v.typ.IsFloat then v
  else
    match e.fparse v.bytes with
    | some fval => { typ := .Float64, fval := fval }
    | none => { typ := .Int64, numval := 0 }

/-- Model of `makeNumeric`: numbers pass through; bytes are parsed as int64,
then as float64, and finally fall back to the integer zero. -/
def makeNumeric (e : Env) (v : EvalResult e) : EvalResult e :=
  if v.typ.IsNumber then v
  else
    match parseInt64 v.bytes with
    | some ival => { typ := .Int64, numval := toUint64 ival }
    | none =>
      match e.fparse v.bytes with
      | some fval => { typ := .Float64, fval := fval }
      | none => { typ := .Int64, numval := 0 }

/-- Model of `makeNumericAndPrioritize`: normalize both operands and order
them Float64 before Uint64 before Int64. -/
def makeNumericAndPrioritize (e : Env) (i1 i2 : EvalResult e) :
    EvalResult e × EvalResult e :=
  let v1 := makeNumeric e i1
  let v2 := makeNumeric e i2
  match v1.typ with
  | .Int64 =>
    if v2.typ = .Uint64 || v2.typ = .Float64 then (v2, v1) else (v1, v2)
  | .Uint64 =>
    if v2.typ = .Float64 then (v2, v1) else (v1, v2)
  | _ => (v1, v2)

/-- Model of `addNumeric` (the non-error variant; the Go `panic("unreachable")`
default is modelled as the zero EvalResult, unreachable from the public API). -/
def addNumeric (e : Env) (i1 i2 : EvalResult e) : EvalResult e :=
  let p := makeNumericAndPrioritize e i1 i2
  let v1 := p.1
  let v2 := p.2
  match v1.typ with
  | .Int64 => intPlusInt e v1.numval v2.numval
  | .Uint64 =>
    match v2.typ with
    | .Int64 => uintPlusInt e v1.numval v2.numval
    | .Uint64 => uintPlusUint e v1.numval v2.numval
    | _ => {}
  | .Float64 => floatPlusAny e v1.fval v2
  | _ => {}

/-- Model of `addNumericWithError`. -/
def addNumericWithError (e : Env) (i1 i2 : EvalResult e) : Except Err (EvalResult e) :=
  let p := makeNumericAndPrioritize e i1 i2
  let v1 := p.1
  let v2 := p.2
  match v1.typ with
  | .Int64 => intPlusIntWithError e v1.numval v2.numval
  | .Uint64 =>
    match v2.typ with
    | .Int64 => uintPlusIntWithError e v1.numval v2.numval
    | .Uint64 => uintPlusUintWithError e v1.numval v2.numval
    | _ => .error (.internal "invalid arithmetic")
  | .Float64 | .Decimal => .ok (floatPlusAny e v1.fval v2)
  | _ => .error (.internal "invalid arithmetic")

/-- Model of `subtractNumericWithError`. -/
def subtractNumericWithError (e : Env) (i1 i2 : EvalResult e) :
    Except Err (EvalResult e) :=
  let v1 := makeNumeric e i1
  let v2 := makeNumeric e i2
  match v1.typ with
  | .Int64 =>
    match v2.typ with
    | .Int64 => intMinusIntWithError e v1.numval v2.numval
    | .Uint64 => intMinusUintWithError e v1.numval v2.numval
    | .Float64 => .ok (anyMinusFloat e v1 v2.fval)
    | _ => .error (.internal "invalid arithmetic")
  | .Uint64 =>
    match v2.typ with
    | .Int64 => uintMinusIntWithError e v1.numval v2.numval
    | .Uint64 => uintMinusUintWithError e v1.numval v2.numval
    | .Float64 => .ok (anyMinusFloat e v1 v2.fval)
    | _ => .error (.internal "invalid arithmetic")
  | .Float64 => .ok (floatMinusAny e v1.fval v2)
  | _ => .error (.internal "invalid arithmetic")

/-- Model of `multiplyNumericWithError`. -/
def multiplyNumericWithError (e : Env) (i1 i2 : EvalResult e) :
    Except Err (EvalResult e) :=
  let p := makeNumericAndPrioritize e i1 i2
  let v1 := p.1
  let v2 := p.2
  match v1.typ with
  | .Int64 => intTimesIntWithError e v1.numval v2.numval
  | .Uint64 =>
    match v2.typ with
    | .Int64 => uintTimesIntWithError e v1.numval v2.numval
    | .Uint64 => uintTimesUintWithError e v1.numval v2.numval
    | _ => .error (.internal "invalid arithmetic")
  | .Float64 => .ok (floatTimesAny e v1.fval v2)
  | _ => .error (.internal "invalid arithmetic")

/-- Model of `divideNumericWithError`: always divides through float64. -/
def divideNumericWithError (e : Env) (i1 i2 : EvalResult e) :
    Except Err (EvalResult e) :=
  let v1 := makeNumeric e i1
  let v2 := makeNumeric e i2
  match v1.typ with
  | .Int64 => floatDivideAnyWithError e (e.fofInt (toInt64 v1.numval)) v2
  | .Uint64 => floatDivideAnyWithError e (e.fofNat (v1.numval % U64)) v2
  | .Float64 => floatDivideAnyWithError e v1.fval v2
  | _ => .error (.internal "invalid arithmetic")

/-- Three-way comparison of integers as the Go comparison idiom. -/
def cmpInt (x y : Int) : Int := if x = y then 0 else if x < y then -1 else 1

/-- Three-way comparison of naturals. -/
def cmpNat (x y : Nat) : Int := if x = y then 0 else if x < y then -1 else 1

/-- Three-way comparison through the abstract float order. -/
def fcmp (e : Env) (x y : e.F) : Int :=
  if e.fbeq x y then 0 else if e.fblt x y then -1 else 1

/-- Model of Go `bytes.Compare`: lexicographic comparison of raw bytes. -/
def compareStrings (s1 s2 : String) : Int :=
  if s1 = s2 then 0 else if s1 < s2 then -1 else 1

/-- Model of `CoerceTo`: the type-promotion ladder deciding the common
comparison type of two SQL types. -/
def CoerceTo (v1 v2 : SQLType) : Except Err SQLType :=
  if v1 = v2 then .ok v1
  else if v1.IsNull || v2.IsNull then .ok .Null
  else if (v1.IsText || v1.IsBinary) && (v2.IsText || v2.IsBinary) then .ok .VarChar
  else if v1.IsNumber || v2.IsNumber then
    if v1.IsText || v1.IsBinary || v2.IsText || v2.IsBinary then .ok .Float64
    else if v2.IsFloat || v2 = .Decimal || v1.IsFloat || v1 = .Decimal then .ok .Float64
    else if v1.IsSigned then
      if v2.IsUnsigned then .ok .Uint64
      else if v2.IsSigned then .ok .Int64
      else .error (.unimplementedTypes v1 v2)
    else if v1.IsUnsigned then
      if v2.IsSigned || v2.IsUnsigned then .ok .Uint64
      else .error (.unimplementedTypes v1 v2)
    else .error (.unimplementedTypes v1 v2)
  else .error (.unimplementedTypes v1 v2)

/-- Model of `castTo`: coerce a Value into an EvalResult of the given type. -/
def castTo (e : Env) (v : Value) (typ : SQLType) : Except Err (EvalResult e) :=
  if typ = .Null then .ok {}
  else if typ.IsFloat || typ = .Decimal then
    if v.IsSigned then
      match parseInt64 v.RawStr with
      | some ival => .ok { typ := .Float64, fval := e.fofInt ival }
      | none => .error (.internal "parse int failed")
    else if v.IsUnsigned then
      match parseUint64 v.RawStr with
      | some uval => .ok { typ := .Float64, fval := e.fofNat uval }
      | none => .error (.internal "parse uint failed")
    else if v.IsFloat || v.typ = .Decimal then
      match e.fparse v.RawStr with
      | some fval => .ok { typ := .Float64, fval := fval }
      | none => .error (.internal "parse float failed")
    else if v.IsText || v.IsBinary then
      .ok { typ := .Float64, fval := parseStringToFloat e v.RawStr }
    else .error (.internal "coercion should not try to coerce this value to a float")
  else if typ.IsSigned then
    if v.IsSigned then
      match parseInt64 v.RawStr with
      | some ival => .ok { typ := .Int64, numval := toUint64 ival }
      | none => .error (.internal "parse int failed")
    else if v.IsUnsigned then
      match parseUint64 v.RawStr with
      | some uval => .ok { typ := .Int64, numval := uval }
      | none => .error (.internal "parse uint failed")
    else .error (.internal "coercion should not try to coerce this value to a signed int")
  else if typ.IsUnsigned then
    if v.IsSigned then
      match parseInt64 v.RawStr with
      | some uval => .ok { typ := .Uint64, numval := toUint64 uval }
      | none => .error (.internal "parse int failed")
    else if v.IsUnsigned then
      match parseUint64 v.RawStr with
      | some uval => .ok { typ := .Uint64, numval := uval }
      | none => .error (.internal "parse uint failed")
    else .error (.internal "coercion should not try to coerce this value to a unsigned int")
  else if typ.IsText || typ.IsBinary then
    if v.IsText || v.IsBinary then
      .ok { typ := v.typ, bytes := v.RawStr }
    else .error (.internal "coercion should not try to coerce this value to a text")
  else .error (.internal "coercion should not try to coerce this value")

/-- Model of `isByteComparable`: binary and temporal-like types compare by raw bytes. -/
def isByteComparable (typ : SQLType) : Bool :=
  if typ.IsBinary then true
  else
    match typ with
    | .Timestamp | .Date | .Time | .Datetime | .Enum | .Set | .Json | .Bit => true
    | _ => false

/-- Modelled from the spec: `compareNumeric` (evalengine comparison helper not
under src) compares two numeric EvalResults; same-kind operands compare
directly, mixed kinds through the normalized float form. -/
def compareNumeric (e : Env) (v1 v2 : EvalResult e) : Except Err Int :=
  match v1.typ, v2.typ with
  | .Int64, .Int64 => .ok (cmpInt (toInt64 v1.numval) (toInt64 v2.numval))
  | .Uint64, .Uint64 => .ok (cmpNat (v1.numval % U64) (v2.numval % U64))
  | .Float64, .Float64 => .ok (fcmp e v1.fval v2.fval)
  | _, _ => .ok (fcmp e (coerceToFloat e v1) (coerceToFloat e v2))

/-- Model of `NullsafeCompare`: NULL is the least value; byte-comparable pairs
compare as raw bytes; anything else is coerced to the common type and compared
numerically or through the named collation. -/
def NullsafeCompare (e : Env) (v1 v2 : Value) (collationID : Nat) : Except Err Int :=
  if v1.IsNull then
    if v2.IsNull then .ok 0 else .ok (-1)
  else if v2.IsNull then .ok 1
  else if isByteComparable v1.typ && isByteComparable v2.typ then
    match v1.ToBytes with
    | .error err1 => .error err1
    | .ok b1 =>
      match v2.ToBytes with
      | .error err2 => .error err2
      | .ok b2 => .ok (compareStrings b1 b2)
  else
    match CoerceTo v1.typ v2.typ with
    | .error err => .error err
    | .ok typ =>
      match castTo e v1 typ with
      | .error err => .error err
      | .ok v1cast =>
        match castTo e v2 typ with
        | .error err => .error err
        | .ok v2cast =>
          if typ.IsNumber then compareNumeric e v1cast v2cast
          else if typ.IsText || typ.IsBinary then
            if collationID = collationUnknown then
              .error (.unsupportedCollation collationID)
            else
              match e.lookupCollation collationID with
              | none => .error (.unsupportedCollation collationID)
              | some collation =>
                match v1.ToBytes with
                | .error err1 => .error err1
                | .ok b1 =>
                  match v2.ToBytes with
                  | .error err2 => .error err2
                  | .ok b2 =>
                    let result := collation.collate b1 b2 false
                    if result < 0 then .ok (-1)
                    else if 0 < result then .ok 1
                    else .ok 0
          else .error (.unsupportedComparison v1.typ v2.typ)

/-- Modelled from the spec: `numericalHashCode` (evalengine hashing helper not
under src) hashes a numeric EvalResult to its canonical numeric encoding:
integer bits directly, floats through the canonical float encoding. -/
def numericalHashCode (e : Env) (v : EvalResult e) : Nat :=
  match v.typ with
  | .Float64 => e.fcanon v.fval
  | _ => v.numval

/-- Model of `EvalResult.nullSafeHashcode`: NULL hashes to the fixed sentinel,
numbers canonically, text through the named collation, temporals to their
UNIX-nanosecond representation. -/
def nullSafeHashcode (e : Env) (er : EvalResult e) : Except Err Nat :=
  if er.typ.IsNull then .ok (U64 - 1)
  else if er.typ.IsNumber then .ok (numericalHashCode e er)
  else if er.typ.IsText then
    match e.lookupCollation er.collation with
    | none => .error (.internal "text type with an unknown/unsupported collation cannot be hashed")
    | some coll => .ok (coll.hash er.bytes 0)
  else if er.typ.IsDate then
    match e.parseDateNano er.typ er.bytes with
    | .error err => .error err
    | .ok nano => .ok (toUint64 nano)
  else .error (.unimplemented "types does not support hashcode yet")

/-- Model of `NullsafeHashcode`: coerce the value, install the collation, hash. -/
def NullsafeHashcode (e : Env) (v : Value) (collation : Nat) (coerceType : SQLType) :
    Except Err Nat :=
  match castTo e v coerceType with
  | .error err => .error err
  | .ok castValue => nullSafeHashcode e { castValue with collation := collation }

/-- Modelled from the spec: `newEvalResult` (the EE constructor, not under src)
builds the internal representation of a Value: text and binary keep their raw
bytes (tagged VarBinary), integers parse into `numval`, floats and decimals
parse into a Float64 ("textual/decimal are parsed to float or int"), anything
else keeps its bytes under its own tag. -/
def newEvalResult (e : Env) (v : Value) : Except Err (EvalResult e) :=
  if v.IsText || v.IsBinary then .ok { typ := .VarBinary, bytes := v.RawStr }
  else if v.IsSigned then
    match parseInt64 v.RawStr with
    | some ival => .ok { typ := .Int64, numval := toUint64 ival }
    | none => .error (.internal "parse int failed")
  else if v.IsUnsigned then
    match parseUint64 v.RawStr with
    | some uval => .ok { typ := .Uint64, numval := uval }
    | none => .error (.internal "parse uint failed")
  else if v.IsFloat || v.typ = .Decimal then
    match e.fparse v.RawStr with
    | some fval => .ok { typ := .Float64, fval := fval }
    | none => .error (.internal "parse float failed")
  else .ok { typ := v.typ, bytes := v.RawStr }

/-- Modelled from the spec: `ToFloat64` (conversion helper not under src)
converts a non-NULL Value to float64: integers exactly, floats and decimals by
parsing, text and binary leniently through the float-prefix parser. -/
def ToFloat64 (e : Env) (v : Value) : Except Err e.F :=
  if v.IsSigned then
    match parseInt64 v.RawStr with
    | some ival => .ok (e.fofInt ival)
    | none => .error (.internal "parse int failed")
  else if v.IsUnsigned then
    match parseUint64 v.RawStr with
    | some uval => .ok (e.fofNat uval)
    | none => .error (.internal "parse uint failed")
  else if v.IsFloat || v.typ = .Decimal then
    match e.fparse v.RawStr with
    | some fval => .ok fval
    | none => .error (.internal "parse float failed")
  else if v.IsText || v.IsBinary then .ok (parseStringToFloat e v.RawStr)
  else .error (.internal "cannot convert to float")

/-- Modelled from the spec: `toSQLValue` (EvalResult method not under src)
renders a numeric EvalResult back into a Value of the requested SQL type. -/
def toSQLValue (e : Env) (v : EvalResult e) (resultType : SQLType) : Value :=
  if resultType.IsSigned then
    match v.typ with
    | .Int64 | .Uint64 => ⟨resultType, toString (toInt64 v.numval)⟩
    | .Float64 => ⟨resultType, toString (e.ftoInt v.fval)⟩
    | _ => NULL
  else if resultType.IsUnsigned then
    match v.typ with
    | .Int64 | .Uint64 => ⟨resultType, toString (v.numval % U64)⟩
    | .Float64 => ⟨resultType, toString (toUint64 (e.ftoInt v.fval))⟩
    | _ => NULL
  else if resultType.IsFloat || resultType = .Decimal then
    match v.typ with
    | .Int64 => ⟨resultType, toString (toInt64 v.numval)⟩
    | .Uint64 => ⟨resultType, toString (v.numval % U64)⟩
    | .Float64 => ⟨resultType, e.ftoString v.fval⟩
    | _ => NULL
  else NULL

/-- Model of `Add`: public checked addition over Values; NULL absorbs. -/
def evalengine.Add (e : Env) (v1 v2 : Value) : Except Err Value :=
  if v1.IsNull || v2.IsNull then .ok NULL
  else
    match newEvalResult e v1 with
    | .error err => .error err
    | .ok lv1 =>
      match newEvalResult e v2 with
      | .error err => .error err
      | .ok lv2 =>
        match addNumericWithError e lv1 lv2 with
        | .error err => .error err
        | .ok lresult => .ok (toSQLValue e lresult lresult.typ)

/-- Model of `Subtract`. -/
def Subtract (e : Env) (v1 v2 : Value) : Except Err Value :=
  if v1.IsNull || v2.IsNull then .ok NULL
  else
    match newEvalResult e v1 with
    | .error err => .error err
    | .ok lv1 =>
      match newEvalResult e v2 with
      | .error err => .error err
      | .ok lv2 =>
        match subtractNumericWithError e lv1 lv2 with
        | .error err => .error err
        | .ok lresult => .ok (toSQLValue e lresult lresult.typ)

/-- Model of `Multiply`. -/
def Multiply (e : Env) (v1 v2 : Value) : Except Err Value :=
  if v1.IsNull || v2.IsNull then .ok NULL
  else
    match newEvalResult e v1 with
    | .error err => .error err
    | .ok lv1 =>
      match newEvalResult e v2 with
      | .error err => .error err
      | .ok lv2 =>
        match multiplyNumericWithError e lv1 lv2 with
        | .error err => .error err
        | .ok lresult => .ok (toSQLValue e lresult lresult.typ)

/-- Model of `Divide`: the SQL `/` operator; a zero divisor yields NULL with
no error, and the division itself always produces a Float64. -/
def Divide (e : Env) (v1 v2 : Value) : Except Err Value :=
  if v1.IsNull || v2.IsNull then .ok NULL
  else
    match ToFloat64 e v2 with
    | .error err => .error err
    | .ok lv2AsFloat =>
      if e.fbeq lv2AsFloat e.fzero then .ok NULL
      else
        match newEvalResult e v1 with
        | .error err => .error err
        | .ok lv1 =>
          match newEvalResult e v2 with
          | .error err => .error err
          | .ok lv2 =>
            match divideNumericWithError e lv1 lv2 with
            | .error err => .error err
            | .ok lresult => .ok (toSQLValue e lresult lresult.typ)

/-- Model of `NullSafeAdd`: NULL operands are replaced by the zero of the
result type before the checked addition. -/
def NullSafeAdd (e : Env) (w1 w2 : Value) (resultType : SQLType) : Except Err Value :=
  let v1 := if w1.IsNull then (⟨resultType, "0"⟩ : Value) else w1
  let v2 := if w2.IsNull then (⟨resultType, "0"⟩ : Value) else w2
  match newEvalResult e v1 with
  | .error err => .error err
  | .ok lv1 =>
    match newEvalResult e v2 with
    | .error err => .error err
    | .ok lv2 =>
      match addNumericWithError e lv1 lv2 with
      | .error err => .error err
      | .ok lresult => .ok (toSQLValue e lresult resultType)

/-- Model of `minmax`: NULL yields the other operand; otherwise pick by
null-safe comparison. -/
def minmax (e : Env) (v1 v2 : Value) (isMin : Bool) (collation : Nat) :
    Except Err Value :=
  if v1.IsNull then .ok v2
  else if v2.IsNull then .ok v1
  else
    match NullsafeCompare e v1 v2 collation with
    | .error err => .error err
    | .ok n =>
      if isMin = decide (n < 0) then .ok v1 else .ok v2

/-- Model of `Min`. -/
def evalengine.Min (e : Env) (v1 v2 : Value) (collation : Nat) : Except Err Value :=
  minmax e v1 v2 true collation

/-- Model of `Max`. -/
def evalengine.Max (e : Env) (v1 v2 : Value) (collation : Nat) : Except Err Value :=
  minmax e v1 v2 false collation

/-- A keyspace: a named logical database with a sharded flag. -/
structure Keyspace where
  Name : String
  Sharded : Bool
  deriving DecidableEq, Repr

/-- The abstract routing destination produced by vindex mapping
(`key.Destination`). -/
inductive Destination where
  | keyspaceID (id : String)
  | anyShard
  | allShards
  | noShards
  deriving DecidableEq, Repr

/-- A resolved shard endpoint (`srvtopo.ResolvedShard`, opaque handle). -/
structure ResolvedShard where
  keyspace : String
  shard : String
  deriving DecidableEq, Repr

/-- A bind variable (`querypb.BindVariable`): a scalar or a TUPLE of values. -/
inductive BindVariable where
  | str (s : String)
  | int (i : Int)
  | tuple (vals : List Value)
  deriving DecidableEq, Repr

/-- Bind-variable maps, modelled as association lists in insertion order
(also standing in for the Go map's iteration order). -/
abbrev Binds : Type := List (String × BindVariable)

/-- Map read. -/
def bindsGet (bv : Binds) (k : String) : Option BindVariable :=
  match bv.find? (fun p => p.1 = k) with
  | some p => some p.2
  | none => none

/-- Map write: replace the binding in place or append a new one. -/
def bindsSet (bv : Binds) (k : String) (x : BindVariable) : Binds :=
  if (bv.filter (fun p => p.1 = k)).length ≠ 0 then
    bv.map (fun p => if p.1 = k then (k, x) else p)
  else bv ++ [(k, x)]

/-- Map delete. -/
def bindsDelete (bv : Binds) (k : String) : Binds :=
  bv.filter (fun p => p.1 ≠ k)

/-- The published list-var bind name used by the IN opcode (`::__vals`). -/
def ListVarName : String := "__vals"

/-- The published schema-name bind (`sqltypes.BvSchemaName`). -/
def BvSchemaName : String := "__vtschemaname"

/-- The published replace-schema marker bind (`sqltypes.BvReplaceSchemaName`). -/
def BvReplaceSchemaName : String := "__replacevtschemaname"

/-- A recorded session warning (`querypb.QueryWarning`). -/
structure Warning where
  code : Nat
  message : String
  deriving DecidableEq, Repr

/-- Modelled from the spec: `mysql.NewSQLErrorFromError` (not under src) maps
an error into an SQLError whose code and message the warning records. -/
def errToWarning (err : Err) : Warning := ⟨1105, err.message⟩

/-- A query with its bind variables (`querypb.BoundQuery`). -/
structure BoundQuery where
  Sql : String
  BindVariables : Binds

/-- A result set (`sqltypes.Result`): field names, rows, counters. -/
structure SQLResult where
  Fields : List String := []
  Rows : List (List Value) := []
  RowsAffected : Nat := 0
  InsertID : Nat := 0
  deriving DecidableEq, Repr

/-- Modelled from the spec: `Result.Truncate` (sqltypes, not under src) trims
each result to the leading columns; zero means no truncation. -/
def SQLResult.Truncate (result : SQLResult) (l : Nat) : SQLResult :=
  if l = 0 then result
  else
    { result with
      Fields := result.Fields.take l
      Rows := result.Rows.map (fun row => row.take l) }

/-- A qualified table name (`sqlparser.TableName`). -/
structure TableName where
  Name : String
  Qualifier : String
  deriving DecidableEq, Repr

/-- A routed table looked up through the vschema (`vindexes.Table`, reduced
to the fields the Route reads). -/
structure RoutedTable where
  Keyspace : Keyspace
  Name : String
  deriving DecidableEq, Repr

/-- Modelled from the spec: `sqltypes.ValueToProto` (not under src) converts a
Value into its wire form; the embedding keeps the value itself. -/
def ValueToProto (v : Value) : Value := v

/-- The Cursor capability consumed by the Route (`VCursor`): destination
resolution, multi-shard dispatch, routed-table lookup, autocommit approval.
Session warning recording and the timeout handle are modelled as effects
collected by the executor. -/
structure VCursor (e : Env) where
  resolveDestinations : String → List Value → List Destination →
    Except Err (List ResolvedShard × List (List Value))
  executeMultiShard : List ResolvedShard → List BoundQuery → Bool → Bool →
    SQLResult × Option (List (Option Err))
  findRoutedTable : TableName → Except Err (Option RoutedTable)
  autocommitApproval : Bool

/-- The merge-sort ordering parameters (`OrderByParams`). -/
structure OrderByParams where
  Col : Nat
  WeightStringCol : Int
  Desc : Bool
  StarColFixedIndex : Nat
  FromGroupBy : Bool
  CollationID : Nat
  deriving DecidableEq, Repr

/-- The routing opcodes (`RouteOpcode`). -/
inductive RouteOpcode where
  | SelectUnsharded
  | SelectEqualUnique
  | SelectEqual
  | SelectIN
  | SelectMultiEqual
  | SelectScatter
  | SelectNext
  | SelectDBA
  | SelectReference
  | SelectNone
  deriving DecidableEq, Repr, Fintype

/-- An evaluation-engine expression capability (`evalengine.Expr`): evaluate
under the bind variables to a Value. -/
abbrev Expr : Type := Binds → Except Err Value

/-- The RouteValue capability: resolve a scalar or a list from the binds. -/
structure RouteValue where
  ResolveValue : Binds → Except Err Value
  ResolveList : Binds → Except Err (List Value)

/-- The Route execution plan. The vindex is the injected single-column
mapping capability; system-table expressions are evaluation capabilities. -/
structure Route (e : Env) where
  Opcode : RouteOpcode
  Keyspace : Keyspace
  Query : String := ""
  TableName : String := ""
  FieldQuery : String := ""
  Vindex : List Value → Except Err (List Destination) := fun _ => .ok []
  Value : RouteValue := ⟨fun _ => .ok NULL, fun _ => .ok []⟩
  OrderBy : List OrderByParams := []
  TruncateColumnCount : Nat := 0
  QueryTimeout : Nat := 0
  ScatterErrorsAsWarnings : Bool := false
  SysTableTableSchema : List Expr := []
  SysTableTableName : List (String × Expr) := []

/-- Model of `getQueries`: pair the query text with each per-shard binds. -/
def getQueries (query : String) (bvs : List Binds) : List BoundQuery :=
  bvs.map (fun bv => ⟨query, bv⟩)

/-- Model of `filterOutNilErrors`. -/
def filterOutNilErrors (errs : List (Option Err)) : List Err :=
  errs.filterMap id

/-- Modelled from the spec: `vterrors.Aggregate` (not under src) folds errors
into one: none is nil, a single error passes through, several join messages. -/
def aggregateErrs : List Err → Option Err
  | [] => none
  | [err] => some err
  | errs => some (.aggregated (errs.map Err.message))

/-- Model of `shardVars`: one copy of the base binds per shard, each with the
single ListVar TUPLE bind holding that shard's values. -/
def shardVars (bv : Binds) (mapVals : List (List Value)) : List Binds :=
  mapVals.map (fun vals => bindsSet bv ListVarName (.tuple vals))

/-- Model of `resolveShards`: convert keys to wire values, map them through
the vindex, and resolve the destinations through the Cursor. -/
def resolveShards (e : Env) (vindex : List Value → Except Err (List Destination))
    (vc : VCursor e) (keyspace : Keyspace) (vindexKeys : List Value) :
    Except Err (List ResolvedShard × List (List Value)) :=
  let ids := vindexKeys.map ValueToProto
  match vindex vindexKeys with
  | .error err => .error err
  | .ok destinations => vc.resolveDestinations keyspace.Name ids destinations

/-- Model of `paramsAllShards`. -/
def paramsAllShards (e : Env) (route : Route e) (vc : VCursor e) (bindVars : Binds) :
    Except Err (List ResolvedShard × List Binds) :=
  match vc.resolveDestinations route.Keyspace.Name [] [.allShards] with
  | .error err => .error err
  | .ok (rss, _) => .ok (rss, List.replicate rss.length bindVars)

/-- Model of `paramsAnyShard`. -/
def paramsAnyShard (e : Env) (route : Route e) (vc : VCursor e) (bindVars : Binds) :
    Except Err (List ResolvedShard × List Binds) :=
  match vc.resolveDestinations route.Keyspace.Name [] [.anyShard] with
  | .error err => .error err
  | .ok (rss, _) => .ok (rss, List.replicate rss.length bindVars)

/-- Model of `paramsSelectEqual`. -/
def paramsSelectEqual (e : Env) (route : Route e) (vc : VCursor e) (bindVars : Binds) :
    Except Err (List ResolvedShard × List Binds) :=
  match route.Value.ResolveValue bindVars with
  | .error err => .error err
  | .ok value =>
    match resolveShards e route.Vindex vc route.Keyspace [value] with
    | .error err => .error err
    | .ok (rss, _) => .ok (rss, List.replicate rss.length bindVars)

/-- Model of `paramsSelectIn`: resolve the value list, fan keys out per shard,
and give each shard the base binds plus its ListVar tuple. -/
def paramsSelectIn (e : Env) (route : Route e) (vc : VCursor e) (bindVars : Binds) :
    Except Err (List ResolvedShard × List Binds) :=
  match route.Value.ResolveList bindVars with
  | .error err => .error err
  | .ok value =>
    match resolveShards e route.Vindex vc route.Keyspace value with
    | .error err => .error err
    | .ok (rss, values) => .ok (rss, shardVars bindVars values)

/-- Model of `paramsSelectMultiEqual`. -/
def paramsSelectMultiEqual (e : Env) (route : Route e) (vc : VCursor e) (bindVars : Binds) :
    Except Err (List ResolvedShard × List Binds) :=
  match route.Value.ResolveList bindVars with
  | .error err => .error err
  | .ok value =>
    match resolveShards e route.Vindex vc route.Keyspace value with
    | .error err => .error err
    | .ok (rss, _) => .ok (rss, List.replicate rss.length bindVars)

/-- Model of `setReplaceSchemaName`: drop the schema bind and set the marker. -/
def setReplaceSchemaName (bindVars : Binds) : Binds :=
  bindsSet (bindsDelete bindVars BvSchemaName) BvReplaceSchemaName (.int 1)

/-- The `sys_table_schema` evaluation loop of `routeInfoSchemaQuery`: all
expressions must agree on one keyspace string. -/
def sysSchemaLoop (exprs : List Expr) (bindVars : Binds)
    (specifiedKS : String) : Except Err String :=
  match exprs with
  | [] => .ok specifiedKS
  | expr :: rest =>
    match expr bindVars with
    | .error err => .error err
    | .ok result =>
      let ks := result.str
      let sk := if specifiedKS = "" then ks else specifiedKS
      if sk ≠ ks then
        .error (.unimplemented "specifying two different database in the query is not supported")
      else sysSchemaLoop rest bindVars sk

/-- The `sys_table_name` evaluation loop: evaluate each expression, bind it
under its bind-var key, and collect the table names. -/
def sysTableNameLoop (entries : List (String × Expr))
    (bindVars : Binds) (tableNames : List (String × String)) :
    Except Err (List (String × String) × Binds) :=
  match entries with
  | [] => .ok (tableNames, bindVars)
  | (tblBvName, expr) :: rest =>
    match expr bindVars with
    | .error err => .error err
    | .ok val =>
      let tabName := val.str
      sysTableNameLoop rest (bindsSet bindVars tblBvName (.str tabName))
        (tableNames ++ [(tblBvName, tabName)])

/-- Model of `paramsRoutedTable`: the first table that resolves through the
vschema decides the route (the cross-keyspace check of the source cannot fire
because the first routed table returns); binds are mutated in place, so the
updated binds are returned alongside the outcome. -/
def paramsRoutedTable (e : Env) (vc : VCursor e) (bindVars : Binds)
    (tableSchema : String) (tableNames : List (String × String)) :
    Binds × Except Err (Option (List ResolvedShard)) :=
  match tableNames with
  | [] => (bindVars, .ok none)
  | (tblBvName, tableName) :: rest =>
    match vc.findRoutedTable ⟨tableName, tableSchema⟩ with
    | .error err => (bindVars, .error err)
    | .ok (some routedTable) =>
      match vc.resolveDestinations routedTable.Keyspace.Name [] [.anyShard] with
      | .error err =>
        let bindVars := bindsSet bindVars tblBvName (.str routedTable.Name)
        let bindVars := if tableSchema ≠ "" then setReplaceSchemaName bindVars else bindVars
        (bindVars, .error err)
      | .ok (shards, _) =>
        let bindVars := bindsSet bindVars tblBvName (.str routedTable.Name)
        let bindVars := if tableSchema ≠ "" then setReplaceSchemaName bindVars else bindVars
        (bindVars, .ok (some shards))
    | .ok none =>
      paramsRoutedTable e vc (bindsSet bindVars tblBvName (.str tableName))
        tableSchema rest

/-- Model of `routeInfoSchemaQuery`: the information_schema routing decision
tree, threading the in-place bind-variable mutations. -/
def routeInfoSchemaQuery (e : Env) (route : Route e) (vc : VCursor e)
    (bindVars : Binds) : Except Err (List ResolvedShard × Binds) :=
  let dfl : Binds → Except Err (List ResolvedShard × Binds) := fun bv =>
    match vc.resolveDestinations route.Keyspace.Name [] [.anyShard] with
    | .error _ =>
      .error (.wrapped ("failed to find information about keyspace " ++ route.Keyspace.Name))
    | .ok (destinations, _) => .ok (destinations, bv)
  if route.SysTableTableName.isEmpty && route.SysTableTableSchema.isEmpty then
    dfl bindVars
  else
    match sysSchemaLoop route.SysTableTableSchema bindVars "" with
    | .error err => .error err
    | .ok specifiedKS =>
      let bindVars :=
        if specifiedKS ≠ "" then bindsSet bindVars BvSchemaName (.str specifiedKS)
        else bindVars
      match sysTableNameLoop route.SysTableTableName bindVars [] with
      | .error err => .error err
      | .ok (tableNames, bindVars) =>
        if e.systemSchema specifiedKS then dfl bindVars
        else
          let afterRouted : Binds → Except Err (List ResolvedShard × Binds) := fun bv =>
            if specifiedKS = "" then dfl bv
            else
              match vc.resolveDestinations specifiedKS [] [.anyShard] with
              | .error _ => dfl (bindsSet bv BvSchemaName (.str specifiedKS))
              | .ok (destinations, _) => .ok (destinations, setReplaceSchemaName bv)
          if tableNames.length ≠ 0 then
            match paramsRoutedTable e vc bindVars specifiedKS tableNames with
            | (bv2, .error err) => if err.isBadDb then dfl bv2 else .error err
            | (bv2, .ok (some rss)) => .ok (rss, bv2)
            | (bv2, .ok none) => afterRouted bv2
          else afterRouted bindVars

/-- Model of `paramsSystemQuery`: DBA routing returns a single binds map. -/
def paramsSystemQuery (e : Env) (route : Route e) (vc : VCursor e) (bindVars : Binds) :
    Except Err (List ResolvedShard × List Binds) :=
  match routeInfoSchemaQuery e route vc bindVars with
  | .error err => .error err
  | .ok (destinations, binds) => .ok (destinations, [binds])

/-- The opcode dispatch shared by `executeInternal` and `TryStreamExecute`:
select the parameter builder for the Route's opcode. -/
def routeParams (e : Env) (route : Route e) (vc : VCursor e) (bindVars : Binds) :
    Except Err (List ResolvedShard × List Binds) :=
  match route.Opcode with
  | .SelectDBA => paramsSystemQuery e route vc bindVars
  | .SelectUnsharded | .SelectNext | .SelectReference => paramsAnyShard e route vc bindVars
  | .SelectScatter => paramsAllShards e route vc bindVars
  | .SelectEqual | .SelectEqualUnique => paramsSelectEqual e route vc bindVars
  | .SelectIN => paramsSelectIn e route vc bindVars
  | .SelectMultiEqual => paramsSelectMultiEqual e route vc bindVars
  | .SelectNone => .ok ([], [])

/-- Modelled from the spec: the row comparator derived from one OrderByParams
(the engine comparer, not under src): compare at `weight_string_col` when it
is ≥ 0 and ≠ `col`, else at `col` (or `star_col_fixed_index` when it exceeds
`col`); the direction is inverted when descending. -/
def obpCompare (e : Env) (p : OrderByParams) (r1 r2 : List Value) : Except Err Int :=
  let colIndex : Nat :=
    if 0 ≤ p.WeightStringCol && p.WeightStringCol ≠ (p.Col : Int) then
      p.WeightStringCol.toNat
    else if p.StarColFixedIndex > p.Col then p.StarColFixedIndex
    else p.Col
  match NullsafeCompare e (r1.getD colIndex NULL) (r2.getD colIndex NULL) p.CollationID with
  | .error err => .error err
  | .ok cmp => .ok (if p.Desc then -cmp else cmp)

/-- The mutable state of the in-place sort: the row array and the captured
comparator error of the closure in `Route.sort`. -/
structure SortState where
  rows : Array (List Value)
  err : Option Err

/-- Swap two rows in place (Go `reflect.Swapper`; in-bounds in every use). -/
def ssSwap (s : SortState) (i j : Nat) : SortState :=
  let vi := s.rows.getD i []
  let vj := s.rows.getD j []
  { s with rows := (s.rows.setD i vj).setD j vi }

/-- The comparer loop of the less closure in `Route.sort`: the first non-zero
comparison decides; a comparator error reports less=true and the error. -/
def sortLessGo (e : Env) (ri rj : List Value) : List OrderByParams → Bool × Option Err
  | [] => (true, none)
  | c :: rest =>
    match obpCompare e c ri rj with
    | .error err => (true, some err)
    | .ok cmp => if cmp = 0 then sortLessGo e ri rj rest else (decide (cmp < 0), none)

/-- The less closure of `Route.sort`: once the captured error is set, every
later call returns true without comparing. -/
def ssLess (e : Env) (obs : List OrderByParams) (s : SortState) (i j : Nat) :
    Bool × SortState :=
  match s.err with
  | some _ => (true, s)
  | none =>
    let p := sortLessGo e (s.rows.getD i []) (s.rows.getD j []) obs
    (p.1, { s with err := p.2 })

/-- The inner loop of Go `sort.insertionSort`: bubble index j down while less. -/
def insInner (e : Env) (obs : List OrderByParams) (a : Nat) :
    Nat → SortState → SortState
  | 0, s => s
  | j + 1, s =>
    if j + 1 > a then
      let p := ssLess e obs s (j + 1) j
      if p.1 then insInner e obs a j (ssSwap p.2 (j + 1) j) else p.2
    else s

/-- The outer loop of Go `sort.insertionSort` over `[a+1, b)`, fuelled. -/
def insOuter (e : Env) (obs : List OrderByParams) (a b : Nat) :
    Nat → Nat → SortState → SortState
  | 0, _, s => s
  | fuel + 1, i, s =>
    if i < b then insOuter e obs a b fuel (i + 1) (insInner e obs a i s) else s

/-- Go `sort.insertionSort(data, a, b)`. -/
def insertionSortGo (e : Env) (obs : List OrderByParams) (a b : Nat)
    (s : SortState) : SortState :=
  insOuter e obs a b b (a + 1) s

/-- Go `sort.siftDown(data, lo, hi, first)`, fuelled. -/
def siftDownGo (e : Env) (obs : List OrderByParams) (first hi : Nat) :
    Nat → Nat → SortState → SortState
  | 0, _, s => s
  | fuel + 1, root, s =>
    let child := 2 * root + 1
    if child ≥ hi then s
    else
      let p1 :=
        if child + 1 < hi then ssLess e obs s (first + child) (first + child + 1)
        else (false, s)
      let child := if p1.1 then child + 1 else child
      let p2 := ssLess e obs p1.2 (first + root) (first + child)
      if !p2.1 then p2.2
      else siftDownGo e obs first hi fuel child (ssSwap p2.2 (first + root) (first + child))

/-- The heap-building loop of Go `sort.heapSort` (i descending). -/
def heapBuild (e : Env) (obs : List OrderByParams) (first hi : Nat) :
    Nat → SortState → SortState
  | 0, s => s
  | i + 1, s => heapBuild e obs first hi i (siftDownGo e obs first hi hi i s)

/-- The pop loop of Go `sort.heapSort` (i descending; swap the maximum out). -/
def heapPop (e : Env) (obs : List OrderByParams) (first : Nat) :
    Nat → SortState → SortState
  | 0, s => s
  | i + 1, s => heapPop e obs first i (siftDownGo e obs first i (i + 1) 0 (ssSwap s first (first + i)))

/-- Go `sort.heapSort(data, a, b)`. -/
def heapSortGo (e : Env) (obs : List OrderByParams) (a b : Nat) (s : SortState) :
    SortState :=
  heapPop e obs a (b - a) (heapBuild e obs a (b - a) ((b - a - 1) / 2 + 1) s)

/-- Go `sort.medianOfThree(data, m1, m0, m2)`. -/
def medianOfThree (e : Env) (obs : List OrderByParams) (m1 m0 m2 : Nat)
    (s : SortState) : SortState :=
  let p1 := ssLess e obs s m1 m0
  let s1 := if p1.1 then ssSwap p1.2 m1 m0 else p1.2
  let p2 := ssLess e obs s1 m2 m1
  if p2.1 then
    let s2 := ssSwap p2.2 m2 m1
    let p3 := ssLess e obs s2 m1 m0
    if p3.1 then ssSwap p3.2 m1 m0 else p3.2
  else p2.2

/-- The first scan of Go `sort.doPivot`: advance a while data[a] < pivot. -/
def dpLoopA (e : Env) (obs : List OrderByParams) (pivot c : Nat) :
    Nat → Nat → SortState → Nat × SortState
  | 0, a, s => (a, s)
  | fuel + 1, a, s =>
    if a < c then
      let p := ssLess e obs s a pivot
      if p.1 then dpLoopA e obs pivot c fuel (a + 1) p.2 else (a, p.2)
    else (a, s)

/-- The b-scan of Go `sort.doPivot`: advance b while data[b] <= pivot. -/
def dpLoopB (e : Env) (obs : List OrderByParams) (pivot c : Nat) :
    Nat → Nat → SortState → Nat × SortState
  | 0, b, s => (b, s)
  | fuel + 1, b, s =>
    if b < c then
      let p := ssLess e obs s pivot b
      if !p.1 then dpLoopB e obs pivot c fuel (b + 1) p.2 else (b, p.2)
    else (b, s)

/-- The c-scan of Go `sort.doPivot`: retreat c while data[c-1] > pivot. -/
def dpLoopC (e : Env) (obs : List OrderByParams) (pivot b : Nat) :
    Nat → Nat → SortState → Nat × SortState
  | 0, c, s => (c, s)
  | fuel + 1, c, s =>
    if b < c then
      let p := ssLess e obs s pivot (c - 1)
      if p.1 then dpLoopC e obs pivot b fuel (c - 1) p.2 else (c, p.2)
    else (c, s)

/-- The partition loop of Go `sort.doPivot`. -/
def dpMain (e : Env) (obs : List OrderByParams) (pivot : Nat) :
    Nat → Nat → Nat → SortState → Nat × Nat × SortState
  | 0, b, c, s => (b, c, s)
  | fuel + 1, b, c, s =>
    let pb := dpLoopB e obs pivot c (c + 1) b s
    let pc := dpLoopC e obs pivot pb.1 (c + 1) c pb.2
    let b := pb.1
    let c := pc.1
    let s := pc.2
    if b ≥ c then (b, c, s)
    else dpMain e obs pivot fuel (b + 1) (c - 1) (ssSwap s b (c - 1))

/-- The b-retreat of the duplicate-protection loop of Go `sort.doPivot`. -/
def dpPLoopB (e : Env) (obs : List OrderByParams) (pivot a : Nat) :
    Nat → Nat → SortState → Nat × SortState
  | 0, b, s => (b, s)
  | fuel + 1, b, s =>
    if a < b then
      let p := ssLess e obs s (b - 1) pivot
      if !p.1 then dpPLoopB e obs pivot a fuel (b - 1) p.2 else (b, p.2)
    else (b, s)

/-- The a-advance of the duplicate-protection loop of Go `sort.doPivot`. -/
def dpPLoopA (e : Env) (obs : List OrderByParams) (pivot b : Nat) :
    Nat → Nat → SortState → Nat × SortState
  | 0, a, s => (a, s)
  | fuel + 1, a, s =>
    if a < b then
      let p := ssLess e obs s a pivot
      if p.1 then dpPLoopA e obs pivot b fuel (a + 1) p.2 else (a, p.2)
    else (a, s)

/-- The duplicate-protection loop of Go `sort.doPivot`. -/
def dpProtect (e : Env) (obs : List OrderByParams) (pivot : Nat) :
    Nat → Nat → Nat → SortState → Nat × Nat × SortState
  | 0, a, b, s => (a, b, s)
  | fuel + 1, a, b, s =>
    let pb := dpPLoopB e obs pivot a (b + 1) b s
    let pa := dpPLoopA e obs pivot pb.1 (pb.1 + 1) a pb.2
    let b := pb.1
    let a := pa.1
    let s := pa.2
    if a ≥ b then (a, b, s)
    else dpProtect e obs pivot fuel (a + 1) (b - 1) (ssSwap s a (b - 1))

/-- Go `sort.doPivot(data, lo, hi)`: median-of-three (or -nine) pivot choice
followed by three-way partition, returning (midlo, midhi). -/
def doPivotGo (e : Env) (obs : List OrderByParams) (lo hi : Nat) (s : SortState) :
    Nat × Nat × SortState :=
  let m := (lo + hi) / 2
  let s :=
    if hi - lo > 40 then
      let stp := (hi - lo) / 8
      let s1 := medianOfThree e obs lo (lo + stp) (lo + 2 * stp) s
      let s2 := medianOfThree e obs m (m - stp) (m + stp) s1
      medianOfThree e obs (hi - 1) (hi - 1 - stp) (hi - 1 - 2 * stp) s2
    else s
  let s := medianOfThree e obs lo m (hi - 1) s
  let pivot := lo
  let pa := dpLoopA e obs pivot (hi - 1) (hi + 1) (lo + 1) s
  let a := pa.1
  let pm := dpMain e obs pivot (hi + 1) a (hi - 1) pa.2
  let b0 := pm.1
  let c0 := pm.2.1
  let s0 := pm.2.2
  let protect0 := hi - c0 < 5
  let quad :=
    if !protect0 && hi - c0 < (hi - lo) / 4 then
      let p1 := ssLess e obs s0 pivot (hi - 1)
      let c1 := if !p1.1 then c0 + 1 else c0
      let d1 := if !p1.1 then 1 else 0
      let s1 := if !p1.1 then ssSwap p1.2 c0 (hi - 1) else p1.2
      let p2 := ssLess e obs s1 (b0 - 1) pivot
      let b1 := if !p2.1 then b0 - 1 else b0
      let d2 := if !p2.1 then 1 else 0
      let s2 := p2.2
      let p3 := ssLess e obs s2 m pivot
      let b2 := if !p3.1 then b1 - 1 else b1
      let d3 := if !p3.1 then 1 else 0
      let s3 := if !p3.1 then ssSwap p3.2 m (b1 - 1) else p3.2
      (b2, c1, decide (d1 + d2 + d3 > 1), s3)
    else (b0, c0, protect0, s0)
  let b1 := quad.1
  let c1 := quad.2.1
  let protect := quad.2.2.1
  let s1 := quad.2.2.2
  if protect then
    let pp := dpProtect e obs pivot (hi + 1) a b1 s1
    let b2 := pp.2.1
    let s2 := pp.2.2
    (b2 - 1, c1, ssSwap s2 pivot (b2 - 1))
  else (b1 - 1, c1, ssSwap s1 pivot (b1 - 1))

/-- The gap-6 ShellSort pass Go runs before insertion sort on short ranges. -/
def shellPass (e : Env) (obs : List OrderByParams) (b : Nat) :
    Nat → Nat → SortState → SortState
  | 0, _, s => s
  | fuel + 1, i, s =>
    if i < b then
      let p := ssLess e obs s i (i - 6)
      shellPass e obs b fuel (i + 1) (if p.1 then ssSwap p.2 i (i - 6) else p.2)
    else s

/-- Go `sort.quickSort(data, a, b, maxDepth)` (the Go 1.17 algorithm behind
`sort.Slice`), fuelled: long ranges partition recursively, falling back to
heap sort at depth 0; ranges of at most 12 get the ShellSort pass and
insertion sort. -/
def quickSortGo (e : Env) (obs : List OrderByParams) :
    Nat → Nat → Nat → Nat → SortState → SortState
  | 0, _, _, _, s => s
  | fuel + 1, a, b, maxDepth, s =>
    if b - a > 12 then
      if maxDepth = 0 then heapSortGo e obs a b s
      else
        let pd := doPivotGo e obs a b s
        let mlo := pd.1
        let mhi := pd.2.1
        let s := pd.2.2
        if mlo - a < b - mhi then
          quickSortGo e obs fuel mhi b (maxDepth - 1) (quickSortGo e obs fuel a mlo (maxDepth - 1) s)
        else
          quickSortGo e obs fuel a mlo (maxDepth - 1) (quickSortGo e obs fuel mhi b (maxDepth - 1) s)
    else if b - a > 1 then
      insertionSortGo e obs a b (shellPass e obs b b (a + 6) s)
    else s

/-- Go `sort.maxDepth(n)`: twice the bit length of n. -/
def depthCount (i : Nat) : Nat :=
  if _h : i = 0 then 0 else depthCount (i / 2) + 1
termination_by i
decreasing_by exact Nat.div_lt_self (Nat.pos_of_ne_zero _h) (by omega)

/-- Go `sort.maxDepth(n)`. -/
def maxDepthGo (n : Nat) : Nat := depthCount n * 2

/-- Go `sort.Slice(rows, less)` over the route sort's less closure: run the
quicksort machine from a clean error state. -/
def sortSlice (e : Env) (obs : List OrderByParams) (rows : List (List Value)) :
    SortState :=
  let n := rows.length
  quickSortGo e obs (8 * (n + maxDepthGo n + 4)) 0 n (maxDepthGo n) ⟨rows.toArray, none⟩

/-- Model of `Route.sort`: shallow-copy the result, sort its rows in place
with `sort.Slice`, and return the rows together with the first captured
comparator error. -/
def Route.sort (e : Env) (route : Route e) (inp : SQLResult) : SQLResult × Option Err :=
  let out : SQLResult :=
    { Fields := inp.Fields
      Rows := inp.Rows
      RowsAffected := inp.RowsAffected
      InsertID := inp.InsertID }
  let final := sortSlice e route.OrderBy out.Rows
  ({ out with Rows := final.rows.toList }, final.err)

/-- Model of `execShard`: dispatch one query to one shard, aggregating the
per-shard errors (vterrors.Aggregate skips nil entries). -/
def execShard (e : Env) (vc : VCursor e) (query : String) (bindVars : Binds)
    (rs : ResolvedShard) (rollbackOnError canAutocommit : Bool) :
    Except Err SQLResult :=
  let autocommit := canAutocommit && vc.autocommitApproval
  let pr := vc.executeMultiShard [rs] [⟨query, bindVars⟩] rollbackOnError autocommit
  match aggregateErrs (filterOutNilErrors (pr.2.getD [])) with
  | some err => .error err
  | none => .ok pr.1

/-- Model of `Route.GetFields`: route the field query to any single shard. -/
def GetFields (e : Env) (route : Route e) (vc : VCursor e) (bindVars : Binds) :
    Except Err SQLResult :=
  match vc.resolveDestinations route.Keyspace.Name [] [.anyShard] with
  | .error err => .error err
  | .ok (rss, _) =>
    if rss.length ≠ 1 then
      .error (.internal ("no shards for keyspace: " ++ route.Keyspace.Name))
    else
      match execShard e vc route.FieldQuery bindVars (rss.headD ⟨"", ""⟩) false false with
      | .error err => .error err
      | .ok qr => .ok (qr.Truncate route.TruncateColumnCount)

/-- The outcome of a blocking execution: the Go `(qr, err)` pair plus the
session effects (recorded warnings, PartialSuccessScatter increments). -/
structure ExecOutcome where
  qr : Option SQLResult
  err : Option Err
  warnings : List Warning
  partialIncr : Nat
  deriving Repr

/-- Model of `executeInternal`: opcode dispatch through the parameter
builders, empty-route handling, multi-shard dispatch, the scatter error
policy (aggregate, or demote to warnings and count a partial success), and
the optional order-by sort. -/
def executeInternal (e : Env) (route : Route e) (vc : VCursor e) (bindVars : Binds)
    (wantfields : Bool) : ExecOutcome :=
  match routeParams e route vc bindVars with
  | .error err => ⟨none, some err, [], 0⟩
  | .ok (rss, bvs) =>
    if rss.length = 0 then
      if wantfields then
        match GetFields e route vc bindVars with
        | .error err => ⟨none, some err, [], 0⟩
        | .ok qr => ⟨some qr, none, [], 0⟩
      else ⟨some {}, none, [], 0⟩
    else
      let queries := getQueries route.Query bvs
      let pr := vc.executeMultiShard rss queries false false
      let result := pr.1
      let finish : List Warning → Nat → ExecOutcome := fun warnings incr =>
        if route.OrderBy.isEmpty then ⟨some result, none, warnings, incr⟩
        else
          let p := Route.sort e route result
          ⟨some p.1, p.2, warnings, incr⟩
      match pr.2 with
      | none => finish [] 0
      | some errsRaw =>
        let errs := filterOutNilErrors errsRaw
        if !route.ScatterErrorsAsWarnings || errs.length = rss.length then
          match aggregateErrs errs with
          | some err => ⟨none, some err, [], 0⟩
          | none => ⟨none, none, [], 0⟩
        else finish (errs.map errToWarning) 1

/-- Model of `Route.TryExecute`: the timeout handle is an effect outside this
model; on success the result is truncated, on error the result is dropped. -/
def TryExecute (e : Env) (route : Route e) (vc : VCursor e) (bindVars : Binds)
    (wantfields : Bool) : ExecOutcome :=
  let out := executeInternal e route vc bindVars wantfields
  match out.err with
  | some err => ⟨none, some err, out.warnings, out.partialIncr⟩
  | none =>
    match out.qr with
    | some qr => ⟨some (qr.Truncate route.TruncateColumnCount), none, out.warnings, out.partialIncr⟩
    | none => ⟨none, none, out.warnings, out.partialIncr⟩

/-- Modelled from the spec: the grouping step of the resolver behind
`resolve_destinations` (srvtopo, not under src) — append the id to its
shard's group, shards ordered by first appearance. -/
def addToGroups (s : ResolvedShard) (v : Value) :
    List (ResolvedShard × List Value) → List (ResolvedShard × List Value)
  | [] => [(s, [v])]
  | (s', vs) :: rest =>
    if s' = s then (s', vs ++ [v]) :: rest else (s', vs) :: addToGroups s v rest

/-- Modelled from the spec: fold every (id, destination) pair into the
per-shard groups ("group keys by resolved shard"). -/
def groupPairs (resolve : Destination → ResolvedShard) :
    List (Value × Destination) → List (ResolvedShard × List Value) →
    List (ResolvedShard × List Value)
  | [], acc => acc
  | (v, d) :: rest, acc => groupPairs resolve rest (addToGroups (resolve d) v acc)

/-- Modelled from the spec: `resolve_destinations` over per-key single-shard
destinations — the shards in first-appearance order with the ids grouped per
shard ("given per-key shard destinations, group keys by resolved shard"). -/
def specResolveDestinations (resolve : Destination → ResolvedShard)
    (ids : List Value) (dests : List Destination) :
    List ResolvedShard × List (List Value) :=
  let groups := groupPairs resolve (ids.zip dests) []
  (groups.map Prod.fst, groups.map Prod.snd)

/-- The longest leading digit run of a character list. -/
def leadingDigits : List Char → List Char
  | [] => []
  | c :: cs => if c.isDigit then c :: leadingDigits cs else []

/-- An integer-prefix parser standing in for ParseFloatPrefix in the concrete
witness environment: an optional sign followed by at least one digit. -/
def intParseLeading (s : String) : Option Int :=
  match s.data with
  | '-' :: rest => (digitsToNat (leadingDigits rest)).map (fun n => -(n : Int))
  | '+' :: rest => (digitsToNat (leadingDigits rest)).map (fun n => (n : Int))
  | l => (digitsToNat (leadingDigits l)).map (fun n => (n : Int))

/-- A toy collation equating every pair of strings (constant hash satisfies
the collation contract); stands for a maximally coarse collation table. -/
def collEverythingEqual : Collation where
  name := "toy_eq"
  collate := fun _ _ _ => 0
  hash := fun _ _ => 0
  hashCoherent := fun _ _ _ _ => rfl

/-- A binary (byte-equality) collation with a hash respecting its contract. -/
def collBinaryId : Collation where
  name := "toy_binary"
  collate := fun x y _ => compareStrings x y
  hash := fun x _ => x.length
  hashCoherent := by
    intro x y s h
    simp only [compareStrings] at h
    by_cases hxy : x = y
    · rw [hxy]
    · rw [if_neg hxy] at h
      split at h <;> omega

/-- A concrete executable instantiation of the capability bundle with the
float model carried by the integers; witnesses and counterexamples evaluate
the embedded code under this environment. -/
def intEnv : Env where
  F := Int
  fzero := 0
  fone := 1
  fbeq := fun x y => decide (x = y)
  fblt := fun x y => decide (x < y)
  fadd := fun x y => x + y
  fsub := fun x y => x - y
  fmul := fun x y => x * y
  fdiv := fun x y => Int.tdiv x y
  fofInt := fun i => i
  fofNat := fun n => (n : Int)
  ftoInt := fun x => x
  fbits := fun x => (x + 2 ^ 63).toNat
  fcanon := fun x => (x + 2 ^ 63).toNat
  fcanonCoherent := by
    intro x y h
    have hxy : x = y := by simpa using h
    rw [hxy]
  ftoString := fun x => toString x
  fparse := fun s => parseInt64 s
  fparseLeading := fun s => intParseLeading s
  lookupCollation := fun id =>
    if id = 1 then some collEverythingEqual
    else if id = 2 then some collBinaryId
    else none
  parseDateNano := fun _ _ => .error (.internal "temporal parsing not modelled")
  systemSchema := fun s =>
    s = "mysql" || s = "information_schema" || s = "performance_schema" || s = "sys"

/-- The promotion ladder exactly as the specification words it (the
refinement counterpart of `CoerceTo`): equal types return unchanged; any NULL
side gives Null; both textual/binary gives VarChar; when at least one side is
numeric - a textual/binary other side gives Float64, any float or decimal
side gives Float64, signed vs unsigned (either order) gives Uint64, signed vs
signed gives Int64, unsigned vs unsigned gives Uint64; every remaining pair
fails with the unsupported-comparison error. -/
def coerceSpec (t1 t2 : SQLType) : Except Err SQLType :=
  if t1 = t2 then .ok t1
  else if t1 = .Null || t2 = .Null then .ok .Null
  else if (t1.IsText || t1.IsBinary) && (t2.IsText || t2.IsBinary) then .ok .VarChar
  else if t1.IsNumber || t2.IsNumber then
    if t1.IsText || t1.IsBinary || t2.IsText || t2.IsBinary then .ok .Float64
    else if t1.IsFloat || t1 = .Decimal || t2.IsFloat || t2 = .Decimal then .ok .Float64
    else if (t1.IsSigned && t2.IsUnsigned) || (t1.IsUnsigned && t2.IsSigned) then .ok .Uint64
    else if t1.IsSigned && t2.IsSigned then .ok .Int64
    else if t1.IsUnsigned && t2.IsUnsigned then .ok .Uint64
    else .error (.unimplementedTypes t1 t2)
  else .error (.unimplementedTypes t1 t2)

/-- An EvalResult holding an int64 (numval carries its two's-complement bits). -/
def mkInt64ER (e : Env) (v : Int) : EvalResult e := { typ := .Int64, numval := toUint64 v }

/-- The integer-zero EvalResult that `makeNumeric` falls back to. -/
def zeroInt64ER (e : Env) : EvalResult e := { typ := .Int64, numval := 0 }

/-- Ascending order on column 0 with no weight string. -/
def obpCol0Asc : OrderByParams := ⟨0, -1, false, 0, false, 0⟩

/-- A scatter route over two shards with scatter_errors_as_warnings set and an
order-by whose comparator fails on the dispatched rows. -/
def c1route : Route intEnv :=
  { Opcode := .SelectScatter
    Keyspace := ⟨"ks", true⟩
    Query := "select col from t order by col asc"
    FieldQuery := "select col from t where 1 != 1"
    OrderBy := [obpCol0Asc]
    ScatterErrorsAsWarnings := true }

/-- The two shards of the keyspace in the partial-failure scenario. -/
def c1shards : List ResolvedShard := [⟨"ks", "-80"⟩, ⟨"ks", "80-"⟩]

/-- The partial result gathered from the surviving shard: a VarChar row and a
Date row, which the order-by comparator cannot compare. -/
def c1result : SQLResult := { Rows := [[⟨.VarChar, "a"⟩], [⟨.Date, "2021-01-01"⟩]] }

/-- A cursor whose scatter dispatch reports one failed shard out of two. -/
def c1vc : VCursor intEnv :=
  { resolveDestinations := fun _ _ _ => .ok (c1shards, [])
    executeMultiShard := fun _ _ _ _ =>
      (c1result, some [some (.shard "shard 80- is down"), none])
    findRoutedTable := fun _ => .ok none
    autocommitApproval := false }

/-- The same scatter route without the failing comparator data: the plain
partial-success scenario (order_by empty). -/
def c1wroute : Route intEnv :=
  { Opcode := .SelectScatter
    Keyspace := ⟨"ks", true⟩
    Query := "select col from t"
    ScatterErrorsAsWarnings := true }

/-- The partial result of the plain scenario. -/
def c1wresult : SQLResult := { Rows := [[⟨.Int64, "1"⟩]] }

/-- A cursor reporting one failure out of two shards, rows comparable. -/
def c1wvc : VCursor intEnv :=
  { resolveDestinations := fun _ _ _ => .ok (c1shards, [])
    executeMultiShard := fun _ _ _ _ =>
      (c1wresult, some [none, some (.shard "shard 80- is down")])
    findRoutedTable := fun _ => .ok none
    autocommitApproval := false }

/-- A row equal to `c2rowB` under the column-0 comparator but distinct. -/
def c2rowA : List Value := [⟨.Int64, "1"⟩, ⟨.VarChar, "a"⟩]

/-- The other equal-comparing row. -/
def c2rowB : List Value := [⟨.Int64, "1"⟩, ⟨.VarChar, "b"⟩]

/-- A route sorting on column 0 ascending. -/
def c2route : Route intEnv :=
  { Opcode := .SelectScatter
    Keyspace := ⟨"ks", true⟩
    Query := "select a, b from t order by a asc"
    OrderBy := [obpCol0Asc] }

/-- Rows whose first comparison fails (VarChar vs Date is uncomparable). -/
def c2errResult : SQLResult :=
  { Rows := [[⟨.VarChar, "a"⟩], [⟨.Date, "2021-01-01"⟩], [⟨.Int64, "1"⟩]] }

/-- A cursor with two shards and a clean (error-free) scatter. -/
def c2wvc : VCursor intEnv :=
  { resolveDestinations := fun _ _ _ => .ok (c1shards, [])
    executeMultiShard := fun _ _ _ _ => (c2errResult, none)
    findRoutedTable := fun _ => .ok none
    autocommitApproval := false }

/-- The first shard of the IN fan-out scenario. -/
def c3shard1 : ResolvedShard := ⟨"ks", "-80"⟩

/-- The second shard of the IN fan-out scenario. -/
def c3shard2 : ResolvedShard := ⟨"ks", "80-"⟩

/-- The resolver of the scenario: keyspace id "2" lives on the second shard,
everything else on the first. -/
def c3resolve : Destination → ResolvedShard := fun d =>
  match d with
  | .keyspaceID "2" => c3shard2
  | _ => c3shard1

/-- The IN list of the scenario. -/
def c3vals : List Value := [⟨.Int64, "1"⟩, ⟨.Int64, "2"⟩, ⟨.Int64, "3"⟩]

/-- The destinations the vindex maps the list to. -/
def c3dests : List Destination := [.keyspaceID "1", .keyspaceID "2", .keyspaceID "3"]

/-- An IN route whose vindex maps each value to its keyspace-id destination. -/
def c3route : Route intEnv :=
  { Opcode := .SelectIN
    Keyspace := ⟨"ks", true⟩
    Query := "select col from t where id in ::__vals"
    Vindex := fun vs => .ok (vs.map (fun v => .keyspaceID v.str))
    Value := ⟨fun _ => .ok NULL, fun _ => .ok c3vals⟩ }

/-- A cursor whose resolver follows the spec grouping over `c3resolve`. -/
def c3vc : VCursor intEnv :=
  { resolveDestinations := fun _ ids dests =>
      .ok (specResolveDestinations c3resolve ids dests)
    executeMultiShard := fun _ _ _ _ => ({}, none)
    findRoutedTable := fun _ => .ok none
    autocommitApproval := false }

deriving instance DecidableEq for Except

/-- Two's-complement reinterpretation is injective on 64-bit values. -/
theorem toInt64_inj {m n : Nat} (hm : m < U64) (hn : n < U64)
    (h : toInt64 m = toInt64 n) : m = n := by
  unfold toInt64 U64 at *
  split at h <;> split at h <;> omega

/-- Round trip of the two casts on in-range int64 values. -/
theorem toInt64_toUint64 {v : Int} (h1 : -(2 ^ 63) ≤ v) (h2 : v < 2 ^ 63) :
    toInt64 (toUint64 v) = v := by
  unfold toInt64 toUint64 U64
  split <;> omega

/-- The wrapped value of an int64 sum of two in-range operands. -/
theorem toInt64_toUint64_wrap {z : Int} (ha : -(2 ^ 64) ≤ z) (hb : z < 2 ^ 64) :
    toInt64 (toUint64 z) =
      if z < -(2 ^ 63) then z + 2 ^ 64 else if 2 ^ 63 ≤ z then z - 2 ^ 64 else z := by
  simp only [toInt64, toUint64, U64]
  split_ifs <;> omega

/-- C5 (amended): for int64 operands, the checked addition
(`addNumericWithError` via `intPlusIntWithError`, the path of the public
`Add`) fails with DataOutOfRange on every overflowing sum; the internal
non-error variant (`addNumeric` via `intPlusInt`) promotes every overflowing
sum to Float64(float64(v1) + float64(v2)) except the single pair
MinInt64 + MinInt64, whose wrapped sum is zero and slips both guards,
returning Int64 0; for non-overflowing operands both variants return the same
Int64 sum. -/
theorem c5_int64_add (e : Env) (v1 v2 : Int)
    (h1a : -(2 ^ 63) ≤ v1) (h1b : v1 < 2 ^ 63)
    (h2a : -(2 ^ 63) ≤ v2) (h2b : v2 < 2 ^ 63) :
    ((2 ^ 63 ≤ v1 + v2 ∨ v1 + v2 < -(2 ^ 63)) →
      addNumericWithError e (mkInt64ER e v1) (mkInt64ER e v2) =
        .error (dataOutOfRangeError (toString v1) (toString v2) "BIGINT" "+")) ∧
    ((2 ^ 63 ≤ v1 + v2 ∨ (v1 + v2 < -(2 ^ 63) ∧ -(2 ^ 64) < v1 + v2)) →
      addNumeric e (mkInt64ER e v1) (mkInt64ER e v2) =
        { typ := .Float64, fval := e.fadd (e.fofInt v1) (e.fofInt v2) }) ∧
    (v1 + v2 = -(2 ^ 64) →
      addNumeric e (mkInt64ER e v1) (mkInt64ER e v2) =
        { typ := .Int64, numval := 0 }) ∧
    (-(2 ^ 63) ≤ v1 + v2 → v1 + v2 < 2 ^ 63 →
      addNumericWithError e (mkInt64ER e v1) (mkInt64ER e v2) =
        .ok { typ := .Int64, numval := toUint64 (v1 + v2) } ∧
      addNumeric e (mkInt64ER e v1) (mkInt64ER e v2) =
        { typ := .Int64, numval := toUint64 (v1 + v2) }) := by
  have hA : addNumericWithError e (mkInt64ER e v1) (mkInt64ER e v2) =
      intPlusIntWithError e (toUint64 v1) (toUint64 v2) := rfl
  have hB : addNumeric e (mkInt64ER e v1) (mkInt64ER e v2) =
      intPlusInt e (toUint64 v1) (toUint64 v2) := rfl
  have k1 : toInt64 (toUint64 v1) = v1 := toInt64_toUint64 h1a h1b
  have k2 : toInt64 (toUint64 v2) = v2 := toInt64_toUint64 h2a h2b
  have kw : toInt64 (toUint64 (v1 + v2)) =
      if v1 + v2 < -(2 ^ 63) then v1 + v2 + 2 ^ 64
      else if 2 ^ 63 ≤ v1 + v2 then v1 + v2 - 2 ^ 64 else v1 + v2 :=
    toInt64_toUint64_wrap (by omega) (by omega)
  refine ⟨?_, ?_, ?_, ?_⟩
  · intro hov
    rw [hA]
    rcases hov with hup | hdn
    · have kwu : toInt64 (toUint64 (v1 + v2)) = v1 + v2 - 2 ^ 64 := by
        rw [kw, if_neg (by omega), if_pos (by omega)]
      simp only [intPlusIntWithError, k1, k2, kwu]
      have hx : ¬ v1 < v1 + v2 - 2 ^ 64 := by omega
      have hy : 0 < v2 := by omega
      have hb : (decide (v1 < v1 + v2 - 2 ^ 64) != decide (0 < v2)) = true := by
        simp [hx, hy] <;> omega
      rw [if_pos hb]
    · have kwd : toInt64 (toUint64 (v1 + v2)) = v1 + v2 + 2 ^ 64 := by
        rw [kw, if_pos (by omega)]
      simp only [intPlusIntWithError, k1, k2, kwd]
      have hx : v1 < v1 + v2 + 2 ^ 64 := by omega
      have hy : ¬ 0 < v2 := by omega
      have hb : (decide (v1 < v1 + v2 + 2 ^ 64) != decide (0 < v2)) = true := by
        simp [hx, hy] <;> omega
      rw [if_pos hb]
  · intro hov
    rw [hB]
    rcases hov with hup | hdn
    · have kwu : toInt64 (toUint64 (v1 + v2)) = v1 + v2 - 2 ^ 64 := by
        rw [kw, if_neg (by omega), if_pos (by omega)]
      simp only [intPlusInt, k1, k2, kwu]
      have hx : 0 < v1 := by omega
      have hy : 0 < v2 := by omega
      have hz : v1 + v2 - 2 ^ 64 < 0 := by omega
      have hb : (decide (0 < v1) && decide (0 < v2) && decide (v1 + v2 - 2 ^ 64 < 0) ||
          decide (v1 < 0) && decide (v2 < 0) && decide (0 < v1 + v2 - 2 ^ 64)) = true := by
        simp [hx, hy, hz] <;> omega
      rw [if_pos hb]
    · have kwd : toInt64 (toUint64 (v1 + v2)) = v1 + v2 + 2 ^ 64 := by
        rw [kw, if_pos (by omega)]
      simp only [intPlusInt, k1, k2, kwd]
      have hx : v1 < 0 := by omega
      have hy : v2 < 0 := by omega
      have hz : 0 < v1 + v2 + 2 ^ 64 := by omega
      have hb : (decide (0 < v1) && decide (0 < v2) && decide (v1 + v2 + 2 ^ 64 < 0) ||
          decide (v1 < 0) && decide (v2 < 0) && decide (0 < v1 + v2 + 2 ^ 64)) = true := by
        simp [hx, hy, hz] <;> omega
      rw [if_pos hb]
  · intro hmin
    rw [hB]
    have kwd : toInt64 (toUint64 (v1 + v2)) = 0 := by
      rw [kw, if_pos (by omega)]
      omega
    simp only [intPlusInt, k1, k2, kwd]
    have hb : (decide (0 < v1) && decide (0 < v2) && decide ((0 : Int) < 0) ||
        decide (v1 < 0) && decide (v2 < 0) && decide ((0 : Int) < 0)) = false := by
      simp
    rw [if_neg (by simp [hb])]
    simp [toUint64]
  · intro hlo hhi
    have kw' : toInt64 (toUint64 (v1 + v2)) = v1 + v2 := by
      rw [kw, if_neg (by omega), if_neg (by omega)]
    constructor
    · rw [hA]
      simp only [intPlusIntWithError, k1, k2, kw']
      have hb : (decide (v1 < v1 + v2) != decide (0 < v2)) = false := by
        by_cases h : 0 < v2
        · have hx : v1 < v1 + v2 := by omega
          simp [h, hx] <;> omega
        · have hx : ¬ v1 < v1 + v2 := by omega
          simp [h, hx] <;> omega
      rw [if_neg (by simp [hb])]
    · rw [hB]
      simp only [intPlusInt, k1, k2, kw']
      have hb : (decide (0 < v1) && decide (0 < v2) && decide (v1 + v2 < 0) ||
          decide (v1 < 0) && decide (v2 < 0) && decide (0 < v1 + v2)) = false := by
        simp only [Bool.or_eq_false_iff, Bool.and_eq_false_iff, decide_eq_false_iff_not]
        omega
      rw [if_neg (by simp [hb])]

/-- C5 counterexample: at v1 = v2 = MinInt64 the int64 sum overflows, the
claim demands a Float64 promotion from the non-error variant, yet `addNumeric`
returns Int64 0 (the checked variant does error as claimed). -/
theorem c5_counterexample :
    addNumeric intEnv (mkInt64ER intEnv (-(2 ^ 63))) (mkInt64ER intEnv (-(2 ^ 63))) =
      { typ := .Int64, numval := 0 } ∧
    ((-(2 ^ 63) : Int) + -(2 ^ 63) < -(2 ^ 63)) ∧
    (SQLType.Int64 ≠ SQLType.Float64) ∧
    addNumericWithError intEnv (mkInt64ER intEnv (-(2 ^ 63))) (mkInt64ER intEnv (-(2 ^ 63))) =
      .error (dataOutOfRangeError (toString (-(2 ^ 63) : Int)) (toString (-(2 ^ 63) : Int))
        "BIGINT" "+") :=
  ⟨rfl, by decide, by decide, rfl⟩

/-- Witness for C5 at MaxInt64 + 1, with the public Add evaluated as well. -/
theorem c5_int64_add_witness :
    (-(2 ^ 63) ≤ (2 ^ 63 - 1 : Int) ∧ (2 ^ 63 - 1 : Int) < 2 ^ 63 ∧
      -(2 ^ 63) ≤ (1 : Int) ∧ (1 : Int) < 2 ^ 63 ∧ 2 ^ 63 ≤ (2 ^ 63 - 1 : Int) + 1) ∧
    addNumericWithError intEnv (mkInt64ER intEnv (2 ^ 63 - 1)) (mkInt64ER intEnv 1) =
      .error (dataOutOfRangeError (toString (2 ^ 63 - 1 : Int)) (toString (1 : Int))
        "BIGINT" "+") ∧
    addNumeric intEnv (mkInt64ER intEnv (2 ^ 63 - 1)) (mkInt64ER intEnv 1) =
      { typ := .Float64, fval := intEnv.fadd (intEnv.fofInt (2 ^ 63 - 1)) (intEnv.fofInt 1) } ∧
    evalengine.Add intEnv ⟨.Int64, "9223372036854775807"⟩ ⟨.Int64, "1"⟩ =
      .error (.dataOutOfRange "BIGINT" "+" "9223372036854775807" "1") := by
  have h := c5_int64_add intEnv (2 ^ 63 - 1) 1 (by decide) (by decide) (by decide) (by decide)
  exact ⟨⟨by decide, by decide, by decide, by decide, by decide⟩,
    h.1 (Or.inl (by decide)), h.2.1 (Or.inl (by decide)), by rfl⟩

/-- C8: CoerceTo implements the promotion ladder exactly as specified: equal
types return unchanged; any NULL side gives Null; both textual/binary gives
VarChar; with at least one numeric side a textual/binary other side gives
Float64, any float or decimal side gives Float64, signed vs unsigned (either
order) gives Uint64, signed vs signed gives Int64, unsigned vs unsigned gives
Uint64; every remaining pair fails with the unsupported-comparison error the
source raises there. -/
theorem c8_coerceTo_ladder : ∀ t1 t2 : SQLType, CoerceTo t1 t2 = coerceSpec t1 t2 := by
  decide

/-- C6: NullsafeCompare treats NULL as the strict minimum regardless of the
collation argument: NULL against any non-NULL value is -1, the flipped order
is 1, and NULL against NULL is 0, each with no error. -/
theorem c6_null_minimum (e : Env) (v : Value) (collationID : Nat)
    (h : v.IsNull = false) :
    NullsafeCompare e NULL v collationID = .ok (-1) ∧
    NullsafeCompare e v NULL collationID = .ok 1 ∧
    NullsafeCompare e NULL NULL collationID = .ok 0 := by
  have h' : ¬ v.typ = .Null := by
    simpa [Value.IsNull, SQLType.IsNull] using h
  unfold NullsafeCompare
  simp [NULL, Value.IsNull, SQLType.IsNull, h']

/-- Witness for C6 at a concrete non-NULL value and collation. -/
theorem c6_null_minimum_witness :
    (⟨.Int64, "0"⟩ : Value).IsNull = false ∧
    (NullsafeCompare intEnv NULL ⟨.Int64, "0"⟩ 7 = .ok (-1) ∧
      NullsafeCompare intEnv ⟨.Int64, "0"⟩ NULL 7 = .ok 1 ∧
      NullsafeCompare intEnv NULL NULL 7 = .ok 0) :=
  ⟨by decide, c6_null_minimum intEnv ⟨.Int64, "0"⟩ 7 (by decide)⟩

/-- C9 (amended): `uintTimesIntWithError` rejects whenever the signed operand
is negative or whenever int64(v1) is negative - the latter fires for every
unsigned operand at or above 2^63 regardless of the signed operand; otherwise
it delegates to `uintTimesUintWithError`, which returns the 64-bit wrapped
product and rejects only when that wrapped product is smaller than one of the
operands. That check is not exact overflow rejection: a positive in-range
product is returned exactly, but a zero operand against a nonzero one is
rejected and some overflowing products slip through (see the counterexample). -/
theorem c9_uintTimesInt (e : Env) (v1 v2u : Nat) (h1 : v1 < U64) (h2 : v2u < U64) :
    ((toInt64 v2u < 0 ∨ toInt64 v1 < 0) →
      uintTimesIntWithError e v1 v2u =
        .error (dataOutOfRangeError (toString v1) (toString (toInt64 v2u))
          "BIGINT UNSIGNED" "*")) ∧
    (toInt64 v1 < 0 ↔ 2 ^ 63 ≤ v1) ∧
    (¬ toInt64 v2u < 0 → ¬ toInt64 v1 < 0 →
      uintTimesIntWithError e v1 v2u = uintTimesUintWithError e v1 v2u) ∧
    (∀ er, uintTimesUintWithError e v1 v2u = .ok er →
      er.numval = v1 * v2u % U64 ∧ v1 ≤ er.numval ∧ v2u ≤ er.numval) ∧
    (0 < v1 → 0 < v2u → v1 * v2u < U64 →
      uintTimesUintWithError e v1 v2u = .ok { typ := .Uint64, numval := v1 * v2u }) := by
  have hm1 : v1 % U64 = v1 := Nat.mod_eq_of_lt h1
  have hm2 : v2u % U64 = v2u := Nat.mod_eq_of_lt h2
  refine ⟨?_, ?_, ?_, ?_, ?_⟩
  · intro hneg
    unfold uintTimesIntWithError
    have hb : (decide (toInt64 v2u < 0) || decide (toInt64 v1 < 0)) = true := by
      rcases hneg with h | h <;> simp [h]
    rw [if_pos hb]
  · have h1' : v1 < 2 ^ 64 := h1
    simp only [toInt64, U64, Nat.mod_eq_of_lt h1']
    constructor
    · intro h
      split at h <;> omega
    · intro h
      split <;> omega
  · intro hnn2 hnn1
    unfold uintTimesIntWithError
    have hb : (decide (toInt64 v2u < 0) || decide (toInt64 v1 < 0)) = false := by
      simp [hnn1, hnn2]
    rw [if_neg (by simp [hb])]
  · intro er her
    simp only [uintTimesUintWithError, hm1, hm2] at her
    by_cases hcond :
        (decide (v1 * v2u % U64 < v2u) || decide (v1 * v2u % U64 < v1)) = true
    · rw [if_pos hcond] at her
      exact absurd her (by simp)
    · rw [if_neg hcond] at her
      have h3 : ¬ v1 * v2u % U64 < v2u ∧ ¬ v1 * v2u % U64 < v1 := by
        simpa [not_or] using hcond
      injection her with her'
      subst her'
      exact ⟨rfl, Nat.le_of_not_lt h3.2, Nat.le_of_not_lt h3.1⟩
  · intro hp1 hp2 hlt
    unfold uintTimesUintWithError
    rw [hm1, hm2, Nat.mod_eq_of_lt hlt]
    have hge1 : v1 ≤ v1 * v2u := Nat.le_mul_of_pos_right v1 hp2
    have hge2 : v2u ≤ v1 * v2u := Nat.le_mul_of_pos_left v2u hp1
    rw [if_neg (by simp only [Bool.or_eq_true, decide_eq_true_eq]; omega)]

/-- C9 counterexample: for a non-negative signed operand and v1 below 2^63
the claim promises unsigned multiplication with overflow rejected, but
5 * (2^62 + 1) overflows uint64 and is still accepted with the wrapped value
2^62 + 5, while 0 * 5 does not overflow and is rejected. -/
theorem c9_counterexample :
    uintTimesIntWithError intEnv 5 (2 ^ 62 + 1) =
      .ok { typ := .Uint64, numval := 2 ^ 62 + 5 } ∧
    (5 * (2 ^ 62 + 1) : Nat) ≠ 2 ^ 62 + 5 ∧
    U64 ≤ 5 * (2 ^ 62 + 1) ∧
    (5 : Nat) < 2 ^ 63 ∧ ¬ toInt64 (2 ^ 62 + 1) < 0 ∧
    uintTimesIntWithError intEnv 0 5 =
      .error (dataOutOfRangeError (toString (0 : Nat)) (toString (toInt64 5))
        "BIGINT UNSIGNED" "*") ∧
    (0 * 5 : Nat) < U64 :=
  ⟨rfl, by decide, by decide, by decide, by decide, rfl, by decide⟩

/-- Witness for C9 at v1 = 6, v2 = 7. -/
theorem c9_uintTimesInt_witness :
    ((6 : Nat) < U64 ∧ (7 : Nat) < U64) ∧
    (((toInt64 7 < 0 ∨ toInt64 6 < 0) →
      uintTimesIntWithError intEnv 6 7 =
        .error (dataOutOfRangeError (toString (6 : Nat)) (toString (toInt64 7))
          "BIGINT UNSIGNED" "*")) ∧
    (toInt64 6 < 0 ↔ 2 ^ 63 ≤ 6) ∧
    (¬ toInt64 7 < 0 → ¬ toInt64 6 < 0 →
      uintTimesIntWithError intEnv 6 7 = uintTimesUintWithError intEnv 6 7) ∧
    (∀ er, uintTimesUintWithError intEnv 6 7 = .ok er →
      er.numval = 6 * 7 % U64 ∧ 6 ≤ er.numval ∧ 7 ≤ er.numval) ∧
    ((0 : Nat) < 6 → (0 : Nat) < 7 → 6 * 7 < U64 →
      uintTimesUintWithError intEnv 6 7 = .ok { typ := .Uint64, numval := 6 * 7 })) :=
  ⟨⟨by decide, by decide⟩, c9_uintTimesInt intEnv 6 7 (by decide) (by decide)⟩

/-- C10: an EvalResult that is not numeric and whose bytes parse as neither a
base-10 int64 nor a float64 is normalized by `makeNumeric` to Int64 zero; the
four arithmetic entry points therefore treat such an operand exactly as the
integer-zero EvalResult (on either side) instead of failing with a parse
error, and adding such an operand to Int64(n) returns Int64(n). -/
theorem c10_makeNumeric_fallback (e : Env) (er : EvalResult e)
    (hnum : er.typ.IsNumber = false)
    (hint : parseInt64 er.bytes = none)
    (hfloat : e.fparse er.bytes = none) :
    makeNumeric e er = zeroInt64ER e ∧
    (∀ w : EvalResult e,
      addNumericWithError e er w = addNumericWithError e (zeroInt64ER e) w ∧
      addNumericWithError e w er = addNumericWithError e w (zeroInt64ER e) ∧
      subtractNumericWithError e er w = subtractNumericWithError e (zeroInt64ER e) w ∧
      subtractNumericWithError e w er = subtractNumericWithError e w (zeroInt64ER e) ∧
      multiplyNumericWithError e er w = multiplyNumericWithError e (zeroInt64ER e) w ∧
      multiplyNumericWithError e w er = multiplyNumericWithError e w (zeroInt64ER e) ∧
      divideNumericWithError e er w = divideNumericWithError e (zeroInt64ER e) w ∧
      divideNumericWithError e w er = divideNumericWithError e w (zeroInt64ER e)) ∧
    (∀ n : Int, -(2 ^ 63) ≤ n → n < 2 ^ 63 →
      addNumericWithError e er (mkInt64ER e n) = .ok (mkInt64ER e n)) := by
  have hz : makeNumeric e er = zeroInt64ER e := by
    simp [makeNumeric, hnum, hint, hfloat, zeroInt64ER]
  have hzz : makeNumeric e (zeroInt64ER e) = zeroInt64ER e := rfl
  refine ⟨hz, ?_, ?_⟩
  · intro w
    refine ⟨?_, ?_, ?_, ?_, ?_, ?_, ?_, ?_⟩ <;>
      simp only [addNumericWithError, subtractNumericWithError,
        multiplyNumericWithError, divideNumericWithError,
        makeNumericAndPrioritize, hz, hzz]
  · intro n hn1 hn2
    have hmk : makeNumeric e (mkInt64ER e n) = mkInt64ER e n := rfl
    simp only [addNumericWithError, makeNumericAndPrioritize, hz, hzz, hmk]
    simp only [zeroInt64ER, mkInt64ER]
    have k0 : toInt64 (0 : Nat) = 0 := by decide
    have kn : toInt64 (toUint64 n) = n := toInt64_toUint64 hn1 hn2
    have kz : toInt64 (toUint64 (toInt64 (0 : Nat) + toInt64 (toUint64 n))) = n := by
      rw [k0, kn]
      simpa using toInt64_toUint64 hn1 hn2
    simp [intPlusIntWithError, k0, kn, kz]

/-- Witness for C10 at the text operand "abc" and Int64(5), with the public
Add evaluated on the same data. -/
theorem c10_makeNumeric_fallback_witness :
    (({ typ := .VarBinary, bytes := "abc" } : EvalResult intEnv).typ.IsNumber = false ∧
      parseInt64 "abc" = none ∧ intEnv.fparse "abc" = none) ∧
    makeNumeric intEnv { typ := .VarBinary, bytes := "abc" } = zeroInt64ER intEnv ∧
    addNumericWithError intEnv { typ := .VarBinary, bytes := "abc" } (mkInt64ER intEnv 5) =
      .ok (mkInt64ER intEnv 5) ∧
    evalengine.Add intEnv ⟨.VarChar, "abc"⟩ ⟨.Int64, "5"⟩ = .ok ⟨.Int64, "5"⟩ := by
  have h := c10_makeNumeric_fallback intEnv { typ := .VarBinary, bytes := "abc" }
    (by decide) (by decide) (by rfl)
  exact ⟨⟨by decide, by decide, by rfl⟩, h.1, h.2.2 5 (by decide) (by decide), by rfl⟩

/-- Normalization returns either the numeric input itself or an Int64/Float64. -/
theorem makeNumeric_typ (e : Env) (er : EvalResult e) :
    (er.typ.IsNumber = true ∧ makeNumeric e er = er) ∨
    (makeNumeric e er).typ = .Int64 ∨ (makeNumeric e er).typ = .Float64 := by
  unfold makeNumeric
  by_cases h : er.typ.IsNumber = true
  · left
    exact ⟨h, by rw [if_pos h]⟩
  · right
    rw [if_neg h]
    cases hp : parseInt64 er.bytes
    · cases hq : e.fparse er.bytes
      · left; rfl
      · right; rfl
    · left; rfl

/-- The EE constructor only produces Int64, Uint64, Float64, or non-numeric
tags, so normalizing its output always lands on those three numeric tags. -/
theorem newEvalResult_makeNumeric_typ (e : Env) (v : Value) (er : EvalResult e)
    (h : newEvalResult e v = .ok er) :
    (makeNumeric e er).typ = .Int64 ∨ (makeNumeric e er).typ = .Uint64 ∨
      (makeNumeric e er).typ = .Float64 := by
  rcases makeNumeric_typ e er with ⟨hnum, heq⟩ | hrest
  · rw [heq]
    unfold newEvalResult at h
    split_ifs at h with ht hs hu hf
    · injection h with h'
      rw [← h'] at hnum
      have hnum' : SQLType.IsNumber .VarBinary = true := hnum
      exact absurd hnum' (by decide)
    · cases hp : parseInt64 v.RawStr <;> rw [hp] at h
      · exact absurd h (by simp)
      · injection h with h'
        rw [← h']
        exact Or.inl rfl
    · cases hp : parseUint64 v.RawStr <;> rw [hp] at h
      · exact absurd h (by simp)
      · injection h with h'
        rw [← h']
        exact Or.inr (Or.inl rfl)
    · cases hp : e.fparse v.RawStr <;> rw [hp] at h
      · exact absurd h (by simp)
      · injection h with h'
        rw [← h']
        exact Or.inr (Or.inr rfl)
    · injection h with h'
      rw [← h'] at hnum
      have hnum' : v.typ.IsNumber = true := hnum
      have hs' : v.typ.IsSigned = false := by
        simpa [Value.IsSigned] using hs
      have hu' : v.typ.IsUnsigned = false := by
        simpa [Value.IsUnsigned] using hu
      simp only [Value.IsFloat, Bool.or_eq_true, decide_eq_true_eq, not_or] at hf
      have hnum2 : v.typ.IsNumber = false := by
        simp [SQLType.IsNumber, SQLType.IsIntegral, hs', hu',
          Bool.not_eq_true _ |>.mp hf.1, hf.2]
      rw [hnum2] at hnum'
      exact absurd hnum' (by decide)
  · rcases hrest with h1 | h1
    · exact Or.inl h1
    · exact Or.inr (Or.inr h1)

/-- Division through floats: the dividend argument is exactly the coerced
float of the normalized left operand. -/
theorem divideNumeric_as_float (e : Env) (i1 i2 : EvalResult e)
    (h : (makeNumeric e i1).typ = .Int64 ∨ (makeNumeric e i1).typ = .Uint64 ∨
      (makeNumeric e i1).typ = .Float64) :
    divideNumericWithError e i1 i2 =
      floatDivideAnyWithError e (coerceToFloat e (makeNumeric e i1)) (makeNumeric e i2) := by
  simp only [divideNumericWithError, coerceToFloat]
  rcases h with h | h | h <;> rw [h]

/-- A successful float division always carries the Float64 tag and the
quotient. -/
theorem floatDivideAny_ok (e : Env) (v1 : e.F) (v2 : EvalResult e) (er : EvalResult e)
    (h : floatDivideAnyWithError e v1 v2 = .ok er) : er.typ = .Float64 := by
  simp only [floatDivideAnyWithError] at h
  split at h
  · exact absurd h (by simp)
  · injection h with h'
    rw [← h']

/-- Rendering a Float64 EvalResult at Float64 keeps the Float64 value tag. -/
theorem toSQLValue_float64 (e : Env) (er : EvalResult e) (h : er.typ = .Float64) :
    (toSQLValue e er .Float64).typ = .Float64 := by
  simp only [toSQLValue]
  rw [h]
  rfl

/-- C4: for non-NULL operands, Divide returns NULL with no error when the
divisor converts to float zero; when the divisor is non-zero every successful
result carries the Float64 type; and a DataOutOfRange error is returned
exactly when the float divisor (the coerced float of the normalized right
operand) is less than one and multiplying the quotient back misses the
dividend. -/
theorem c4_divide (e : Env) (v1 v2 : Value) (f : e.F)
    (h1 : v1.IsNull = false) (h2 : v2.IsNull = false)
    (hf : ToFloat64 e v2 = .ok f) :
    (e.fbeq f e.fzero = true → Divide e v1 v2 = .ok NULL) ∧
    (e.fbeq f e.fzero = false →
      (∀ r, Divide e v1 v2 = .ok r → r.typ = .Float64) ∧
      (∀ e1 e2, newEvalResult e v1 = .ok e1 → newEvalResult e v2 = .ok e2 →
        ((∃ er, Divide e v1 v2 = .error er ∧ er.isDataOutOfRange = true) ↔
          (e.fblt (coerceToFloat e (makeNumeric e e2)) e.fone = true ∧
            e.fbeq
              (e.fmul (coerceToFloat e (makeNumeric e e2))
                (e.fdiv (coerceToFloat e (makeNumeric e e1))
                  (coerceToFloat e (makeNumeric e e2))))
              (coerceToFloat e (makeNumeric e e1)) = false)))) := by
  have hnn : (v1.IsNull || v2.IsNull) = false := by simp [h1, h2]
  constructor
  · intro hz
    unfold Divide
    rw [if_neg (by simp [hnn]), hf]
    simp only []
    rw [if_pos hz]
  · intro hbne
    constructor
    · intro r hr
      unfold Divide at hr
      rw [if_neg (by simp [hnn]), hf] at hr
      simp only [] at hr
      rw [if_neg (by simp [hbne])] at hr
      cases he1 : newEvalResult e v1 with
      | error err => rw [he1] at hr; exact absurd hr (by simp)
      | ok e1v =>
        cases he2 : newEvalResult e v2 with
        | error err =>
          simp only [he1, he2] at hr
          exact absurd hr (by simp)
        | ok e2v =>
          simp only [he1, he2] at hr
          cases hd : divideNumericWithError e e1v e2v with
          | error err => rw [hd] at hr; exact absurd hr (by simp)
          | ok lres =>
            rw [hd] at hr
            injection hr with hr'
            rw [← hr']
            have hft : lres.typ = .Float64 := by
              have hty := newEvalResult_makeNumeric_typ e v1 e1v he1
              rw [divideNumeric_as_float e e1v e2v hty] at hd
              exact floatDivideAny_ok e _ _ lres hd
            rw [hft]
            exact toSQLValue_float64 e lres hft
    · intro e1 e2 he1 he2
      unfold Divide
      rw [if_neg (by simp [hnn]), hf]
      simp only []
      rw [if_neg (by simp [hbne]), he1, he2]
      simp only []
      have hty := newEvalResult_makeNumeric_typ e v1 e1 he1
      rw [divideNumeric_as_float e e1 e2 hty]
      simp only [floatDivideAnyWithError]
      by_cases hg : (e.fblt (coerceToFloat e (makeNumeric e e2)) e.fone &&
          !e.fbeq
            (e.fmul (coerceToFloat e (makeNumeric e e2))
              (e.fdiv (coerceToFloat e (makeNumeric e e1))
                (coerceToFloat e (makeNumeric e e2))))
            (coerceToFloat e (makeNumeric e e1))) = true
      · rw [if_pos hg]
        constructor
        · intro _
          have := Bool.and_eq_true_iff.mp hg
          exact ⟨this.1, by simpa using this.2⟩
        · intro _
          exact ⟨.dataOutOfRange "BIGINT" "/"
            (e.ftoString (coerceToFloat e (makeNumeric e e1)))
            (e.ftoString (coerceToFloat e (makeNumeric e e2))), rfl, rfl⟩
      · rw [if_neg hg]
        constructor
        · intro ⟨er, her, _⟩
          exact absurd her (by simp)
        · intro hc
          exfalso
          apply hg
          simp [hc.1, hc.2]

/-- Witness for C4: 1 / 0 yields NULL without error, and 1 / 2 succeeds with
a Float64-typed result. -/
theorem c4_divide_witness :
    ((⟨.Int64, "1"⟩ : Value).IsNull = false ∧ (⟨.Int64, "2"⟩ : Value).IsNull = false ∧
      ToFloat64 intEnv ⟨.Int64, "2"⟩ = .ok (intEnv.fofInt 2) ∧
      ToFloat64 intEnv ⟨.Int64, "0"⟩ = .ok (intEnv.fofInt 0) ∧
      intEnv.fbeq (intEnv.fofInt 0) intEnv.fzero = true ∧
      intEnv.fbeq (intEnv.fofInt 2) intEnv.fzero = false) ∧
    Divide intEnv ⟨.Int64, "1"⟩ ⟨.Int64, "0"⟩ = .ok NULL ∧
    (∀ r, Divide intEnv ⟨.Int64, "1"⟩ ⟨.Int64, "2"⟩ = .ok r → r.typ = .Float64) := by
  have hz := c4_divide intEnv ⟨.Int64, "1"⟩ ⟨.Int64, "0"⟩ (intEnv.fofInt 0)
    (by decide) (by decide) (by rfl)
  have hnz := c4_divide intEnv ⟨.Int64, "1"⟩ ⟨.Int64, "2"⟩ (intEnv.fofInt 2)
    (by decide) (by decide) (by rfl)
  exact ⟨⟨by decide, by decide, by rfl, by rfl, by rfl, by rfl⟩,
    hz.1 (by rfl), (hnz.2 (by rfl)).1⟩

/-- The uint64 cast always lands below the 64-bit modulus. -/
theorem toUint64_lt (i : Int) : toUint64 i < U64 := by
  unfold toUint64 U64
  omega

/-- A parsed uint64 is below the 64-bit modulus. -/
theorem parseUint64_lt {s : String} {n : Nat} (h : parseUint64 s = some n) : n < U64 := by
  unfold parseUint64 at h
  cases hd : digitsToNat s.data <;> simp only [hd] at h
  · exact absurd h (by simp)
  · split_ifs at h with hlt
    · injection h with h'
      omega

/-- Signed target types are neither Null nor float/decimal. -/
theorem signed_facts : ∀ t : SQLType, t.IsSigned = true →
    (t = .Null) = False ∧ (t.IsFloat || t = .Decimal) = false := by decide

/-- Unsigned target types are neither Null, float/decimal, nor signed. -/
theorem unsigned_facts : ∀ t : SQLType, t.IsUnsigned = true →
    (t = .Null) = False ∧ (t.IsFloat || t = .Decimal) = false ∧ t.IsSigned = false := by decide

/-- Float or decimal target types are not Null. -/
theorem floatdec_facts : ∀ t : SQLType, (t.IsFloat || t = .Decimal) = true →
    (t = .Null) = False := by decide

/-- Textual or binary target types skip every earlier castTo branch. -/
theorem textbin_facts : ∀ t : SQLType, (t.IsText || t.IsBinary) = true →
    (t = .Null) = False ∧ (t.IsFloat || t = .Decimal) = false ∧
    t.IsSigned = false ∧ t.IsUnsigned = false := by decide

/-- Casting to a float or decimal target yields a Float64 EvalResult. -/
theorem castTo_floatdec (e : Env) (v : Value) (t : SQLType) (er : EvalResult e)
    (ht : (t.IsFloat || t = .Decimal) = true) (h : castTo e v t = .ok er) :
    er.typ = .Float64 := by
  unfold castTo at h
  rw [if_neg (by simp [floatdec_facts t ht]), if_pos ht] at h
  split_ifs at h
  · cases hp : parseInt64 v.RawStr <;> rw [hp] at h
    · exact absurd h (by simp)
    · injection h with h'
      rw [← h']
  · cases hp : parseUint64 v.RawStr <;> rw [hp] at h
    · exact absurd h (by simp)
    · injection h with h'
      rw [← h']
  · cases hp : e.fparse v.RawStr <;> rw [hp] at h
    · exact absurd h (by simp)
    · injection h with h'
      rw [← h']
  · injection h with h'
    rw [← h']

/-- Casting to a signed target yields an Int64 EvalResult with 64-bit numval. -/
theorem castTo_signed (e : Env) (v : Value) (t : SQLType) (er : EvalResult e)
    (ht : t.IsSigned = true) (h : castTo e v t = .ok er) :
    er.typ = .Int64 ∧ er.numval < U64 := by
  unfold castTo at h
  rw [if_neg (by simp [(signed_facts t ht).1]),
    if_neg (by simp [(signed_facts t ht).2]), if_pos ht] at h
  split_ifs at h
  · cases hp : parseInt64 v.RawStr <;> rw [hp] at h
    · exact absurd h (by simp)
    · injection h with h'
      rw [← h']
      exact ⟨rfl, toUint64_lt _⟩
  · cases hp : parseUint64 v.RawStr <;> rw [hp] at h
    · exact absurd h (by simp)
    · injection h with h'
      rw [← h']
      exact ⟨rfl, parseUint64_lt hp⟩

/-- Casting to an unsigned target yields a Uint64 EvalResult with 64-bit numval. -/
theorem castTo_unsigned (e : Env) (v : Value) (t : SQLType) (er : EvalResult e)
    (ht : t.IsUnsigned = true) (h : castTo e v t = .ok er) :
    er.typ = .Uint64 ∧ er.numval < U64 := by
  unfold castTo at h
  rw [if_neg (by simp [(unsigned_facts t ht).1]),
    if_neg (by simp [(unsigned_facts t ht).2.1]),
    if_neg (by simp [(unsigned_facts t ht).2.2]), if_pos ht] at h
  split_ifs at h
  · cases hp : parseInt64 v.RawStr <;> rw [hp] at h
    · exact absurd h (by simp)
    · injection h with h'
      rw [← h']
      exact ⟨rfl, toUint64_lt _⟩
  · cases hp : parseUint64 v.RawStr <;> rw [hp] at h
    · exact absurd h (by simp)
    · injection h with h'
      rw [← h']
      exact ⟨rfl, parseUint64_lt hp⟩

/-- Casting to a textual or binary target keeps the source tag and bytes. -/
theorem castTo_textbin (e : Env) (v : Value) (t : SQLType) (er : EvalResult e)
    (ht : (t.IsText || t.IsBinary) = true) (h : castTo e v t = .ok er) :
    er = { typ := v.typ, bytes := v.str } ∧ (v.typ.IsText || v.typ.IsBinary) = true := by
  unfold castTo at h
  rw [if_neg (by simp [(textbin_facts t ht).1]),
    if_neg (by simp [(textbin_facts t ht).2.1]),
    if_neg (by simp [(textbin_facts t ht).2.2.1]),
    if_neg (by simp [(textbin_facts t ht).2.2.2]), if_pos ht] at h
  split_ifs at h with hv
  injection h with h'
  exact ⟨h'.symm, by simpa [Value.IsText, Value.IsBinary] using hv⟩

/-- Byte-comparable pairs succeed in CoerceTo only on equal types or on two
binary types promoted to VarChar. -/
theorem byteComp_coerce : ∀ t1 t2 t : SQLType, isByteComparable t1 = true →
    isByteComparable t2 = true → CoerceTo t1 t2 = .ok t →
    (t1 = t2 ∧ t = t1) ∨ (t1.IsBinary = true ∧ t2.IsBinary = true ∧ t = .VarChar) := by
  decide

/-- Type-level facts feeding the hash-branch analysis. -/
theorem isnumber_facts : ∀ t : SQLType, t.IsNumber = true →
    t.IsNull = false := by decide

/-- A numeric tag is float/decimal, signed, or unsigned. -/
theorem number_kind : ∀ t : SQLType, t.IsNumber = true →
    (t.IsFloat || t = .Decimal) = true ∨ t.IsSigned = true ∨ t.IsUnsigned = true := by decide

/-- Textual tags are neither Null nor numeric. -/
theorem istext_facts : ∀ t : SQLType, t.IsText = true →
    t.IsNull = false ∧ t.IsNumber = false := by decide

/-- Binary tags hit no hashing branch at all. -/
theorem isbinary_facts : ∀ t : SQLType, t.IsBinary = true →
    t.IsNull = false ∧ t.IsNumber = false ∧ t.IsText = false ∧ t.IsDate = false := by decide

/-- Hashing a numeric EvalResult returns its canonical numeric encoding. -/
theorem nullSafeHashcode_number (e : Env) (er : EvalResult e)
    (h : er.typ.IsNumber = true) :
    nullSafeHashcode e er = .ok (numericalHashCode e er) := by
  unfold nullSafeHashcode
  rw [if_neg (by simp [isnumber_facts er.typ h]), if_pos h]

/-- Hashing a text EvalResult goes through its collation. -/
theorem nullSafeHashcode_text (e : Env) (er : EvalResult e)
    (h : er.typ.IsText = true) :
    nullSafeHashcode e er =
      (match e.lookupCollation er.collation with
        | none => .error (.internal "text type with an unknown/unsupported collation cannot be hashed")
        | some coll => .ok (coll.hash er.bytes 0)) := by
  unfold nullSafeHashcode
  rw [if_neg (by simp [(istext_facts er.typ h).1]),
    if_neg (by simp [(istext_facts er.typ h).2]), if_pos h]

/-- Hashing a binary EvalResult is unsupported. -/
theorem nullSafeHashcode_binary (e : Env) (er : EvalResult e)
    (h : er.typ.IsBinary = true) :
    nullSafeHashcode e er = .error (.unimplemented "types does not support hashcode yet") := by
  unfold nullSafeHashcode
  rw [if_neg (by simp [(isbinary_facts er.typ h).1]),
    if_neg (by simp [(isbinary_facts er.typ h).2.1]),
    if_neg (by simp [(isbinary_facts er.typ h).2.2.1]),
    if_neg (by simp [(isbinary_facts er.typ h).2.2.2])]

/-- A zero three-way float comparison means the float equality held. -/
theorem fcmp_zero (e : Env) (x y : e.F) (h : fcmp e x y = 0) : e.fbeq x y = true := by
  unfold fcmp at h
  split_ifs at h with h1 h2
  · exact h1
  · exact absurd h (by simp)

/-- A zero three-way integer comparison means equality. -/
theorem cmpInt_zero (x y : Int) (h : cmpInt x y = 0) : x = y := by
  unfold cmpInt at h
  split_ifs at h with h1 h2
  · exact h1
  · exact absurd h (by simp)

/-- A zero three-way natural comparison means equality. -/
theorem cmpNat_zero (x y : Nat) (h : cmpNat x y = 0) : x = y := by
  unfold cmpNat at h
  split_ifs at h with h1 h2
  · exact h1
  · exact absurd h (by simp)

/-- A zero byte comparison means the byte strings are equal. -/
theorem compareStrings_eq_zero {s1 s2 : String} (h : compareStrings s1 s2 = 0) :
    s1 = s2 := by
  unfold compareStrings at h
  by_cases h1 : s1 = s2
  · exact h1
  · rw [if_neg h1] at h
    split at h <;> exact absurd h (by decide)

/-- Hashing a numeric EvalResult under any collation returns its canonical
numeric encoding. -/
theorem hash_of_num (e : Env) (er : EvalResult e) (c hv : Nat)
    (hn : er.typ.IsNumber = true)
    (h : nullSafeHashcode e { er with collation := c } = .ok hv) :
    hv = numericalHashCode e er := by
  rw [nullSafeHashcode_number e { er with collation := c } hn] at h
  injection h with h'
  rw [← h']
  rfl

/-- The canonical numeric encoding of an Int64 EvalResult is its numval. -/
theorem numericalHashCode_int (e : Env) (er : EvalResult e)
    (ht : er.typ = .Int64) : numericalHashCode e er = er.numval := by
  unfold numericalHashCode
  rw [ht]

/-- The canonical numeric encoding of a Uint64 EvalResult is its numval. -/
theorem numericalHashCode_uint (e : Env) (er : EvalResult e)
    (ht : er.typ = .Uint64) : numericalHashCode e er = er.numval := by
  unfold numericalHashCode
  rw [ht]

/-- The canonical numeric encoding of a Float64 EvalResult is the canonical
float encoding of its float payload. -/
theorem numericalHashCode_float (e : Env) (er : EvalResult e)
    (ht : er.typ = .Float64) : numericalHashCode e er = e.fcanon er.fval := by
  unfold numericalHashCode
  rw [ht]

/-- Hashing a text EvalResult under collation id c uses that collation's hash. -/
theorem hash_of_text (e : Env) (er : EvalResult e) (c hv : Nat) (coll : Collation)
    (ht : er.typ.IsText = true) (hlc : e.lookupCollation c = some coll)
    (h : nullSafeHashcode e { er with collation := c } = .ok hv) :
    hv = coll.hash er.bytes 0 := by
  rw [nullSafeHashcode_text e { er with collation := c } ht] at h
  simp only [] at h
  rw [hlc] at h
  simp only [] at h
  injection h with h'
  rw [← h']

/-- C7 amended core: if two non-Expression values compare equal under
NullsafeCompare at some collation, then hashing both with that collation at
the comparison's own coercion type CoerceTo(a.typ, b.typ) yields equal
hashcodes whenever both hashes succeed. -/
theorem c7_compare_hash (e : Env) (a b : Value) (c : Nat) (t : SQLType)
    (ha hb : Nat)
    (hct : CoerceTo a.typ b.typ = .ok t)
    (h0 : NullsafeCompare e a b c = .ok 0)
    (h1 : NullsafeHashcode e a c t = .ok ha)
    (h2 : NullsafeHashcode e b c t = .ok hb) :
    ha = hb := by
  unfold NullsafeCompare at h0
  by_cases hna : a.IsNull = true
  · rw [if_pos hna] at h0
    by_cases hnb : b.IsNull = true
    · have hat : a.typ = .Null := by simpa [Value.IsNull, SQLType.IsNull] using hna
      have hbt : b.typ = .Null := by simpa [Value.IsNull, SQLType.IsNull] using hnb
      rw [hat, hbt] at hct
      have ht : t = .Null := by
        have hnn : CoerceTo .Null .Null = .ok .Null := by decide
        rw [hnn] at hct
        injection hct with h'
        exact h'.symm
      subst ht
      have hA : NullsafeHashcode e a c .Null = .ok (U64 - 1) := rfl
      have hB : NullsafeHashcode e b c .Null = .ok (U64 - 1) := rfl
      rw [hA] at h1
      rw [hB] at h2
      injection h1 with h1'
      injection h2 with h2'
      rw [← h1', ← h2']
    · rw [if_neg hnb] at h0
      injection h0 with h0'
      omega
  · rw [if_neg hna] at h0
    by_cases hnb : b.IsNull = true
    · rw [if_pos hnb] at h0
      injection h0 with h0'
      omega
    · rw [if_neg hnb] at h0
      by_cases hbc : (isByteComparable a.typ && isByteComparable b.typ) = true
      · rw [if_pos hbc] at h0
        simp only [Value.ToBytes] at h0
        injection h0 with h0'
        have hstr : a.str = b.str := compareStrings_eq_zero h0'
        have hand := Bool.and_eq_true_iff.mp hbc
        rcases byteComp_coerce a.typ b.typ t hand.1 hand.2 hct with ⟨heq, _⟩ | ⟨hba, _, htv⟩
        · have hab : a = b := by
            cases a
            cases b
            simp only [] at heq hstr
            rw [heq, hstr]
          rw [hab] at h1
          rw [h1] at h2
          injection h2
        · subst htv
          unfold NullsafeHashcode at h1
          cases hca : castTo e a .VarChar with
          | error err =>
            rw [hca] at h1
            exact absurd h1 (by simp)
          | ok av =>
            rw [hca] at h1
            simp only [] at h1
            have hsh := castTo_textbin e a .VarChar av (by decide) hca
            rw [hsh.1] at h1
            rw [nullSafeHashcode_binary e _ hba] at h1
            exact absurd h1 (by simp)
      · rw [if_neg hbc, hct] at h0
        simp only [] at h0
        cases hca : castTo e a t with
        | error err =>
          rw [hca] at h0
          exact absurd h0 (by simp)
        | ok a1 =>
        cases hcb : castTo e b t with
        | error err =>
          simp only [hca, hcb] at h0
          exact absurd h0 (by simp)
        | ok b1 =>
          simp only [hca, hcb] at h0
          unfold NullsafeHashcode at h1 h2
          rw [hca] at h1
          rw [hcb] at h2
          simp only [] at h1 h2
          by_cases hnum : t.IsNumber = true
          · rw [if_pos hnum] at h0
            rcases number_kind t hnum with htf | hts | htu
            · have sa := castTo_floatdec e a t a1 htf hca
              have sb := castTo_floatdec e b t b1 htf hcb
              unfold compareNumeric at h0
              rw [sa, sb] at h0
              simp only [] at h0
              injection h0 with h0'
              have hbeq := fcmp_zero e a1.fval b1.fval h0'
              have e1 := hash_of_num e a1 c ha (by rw [sa]; decide) h1
              have e2 := hash_of_num e b1 c hb (by rw [sb]; decide) h2
              rw [e1, e2, numericalHashCode_float e a1 sa, numericalHashCode_float e b1 sb]
              exact e.fcanonCoherent a1.fval b1.fval hbeq
            · obtain ⟨sa, wa⟩ := castTo_signed e a t a1 hts hca
              obtain ⟨sb, wb⟩ := castTo_signed e b t b1 hts hcb
              unfold compareNumeric at h0
              rw [sa, sb] at h0
              simp only [] at h0
              injection h0 with h0'
              have hiv := toInt64_inj wa wb (cmpInt_zero _ _ h0')
              have e1 := hash_of_num e a1 c ha (by rw [sa]; decide) h1
              have e2 := hash_of_num e b1 c hb (by rw [sb]; decide) h2
              rw [e1, e2, numericalHashCode_int e a1 sa, numericalHashCode_int e b1 sb]
              exact hiv
            · obtain ⟨sa, wa⟩ := castTo_unsigned e a t a1 htu hca
              obtain ⟨sb, wb⟩ := castTo_unsigned e b t b1 htu hcb
              unfold compareNumeric at h0
              rw [sa, sb] at h0
              simp only [] at h0
              injection h0 with h0'
              have hnv := cmpNat_zero _ _ h0'
              rw [Nat.mod_eq_of_lt wa, Nat.mod_eq_of_lt wb] at hnv
              have e1 := hash_of_num e a1 c ha (by rw [sa]; decide) h1
              have e2 := hash_of_num e b1 c hb (by rw [sb]; decide) h2
              rw [e1, e2, numericalHashCode_uint e a1 sa, numericalHashCode_uint e b1 sb]
              exact hnv
          · rw [if_neg hnum] at h0
            by_cases htb : (t.IsText || t.IsBinary) = true
            · rw [if_pos htb] at h0
              by_cases hc0 : c = collationUnknown
              · rw [if_pos hc0] at h0
                exact absurd h0 (by simp)
              · rw [if_neg hc0] at h0
                cases hlc : e.lookupCollation c with
                | none =>
                  rw [hlc] at h0
                  exact absurd h0 (by simp)
                | some coll =>
                  rw [hlc] at h0
                  simp only [Value.ToBytes] at h0
                  obtain ⟨hsa, hora⟩ := castTo_textbin e a t a1 htb hca
                  obtain ⟨hsb, horb⟩ := castTo_textbin e b t b1 htb hcb
                  rcases (by simpa using hora :
                      a.typ.IsText = true ∨ a.typ.IsBinary = true) with hat | hab
                  · rcases (by simpa using horb :
                        b.typ.IsText = true ∨ b.typ.IsBinary = true) with hbt | hbb
                    · have hres : coll.collate a.str b.str false = 0 := by
                        split_ifs at h0 with hr1 hr2
                        · injection h0 with h0'
                          omega
                        · injection h0 with h0'
                          omega
                        · omega
                      subst hsa
                      subst hsb
                      have e1 := hash_of_text e _ c ha coll hat hlc h1
                      have e2 := hash_of_text e _ c hb coll hbt hlc h2
                      rw [e1, e2]
                      exact coll.hashCoherent a.str b.str 0 hres
                    · subst hsb
                      rw [nullSafeHashcode_binary e _ hbb] at h2
                      exact absurd h2 (by simp)
                  · subst hsa
                    rw [nullSafeHashcode_binary e _ hab] at h1
                    exact absurd h1 (by simp)
            · rw [if_neg htb] at h0
              exact absurd h0 (by simp)

/-- C7 counterexample: under the everything-equal collation (id 1 of the
concrete environment), "1" and "2" as VarChar compare equal, yet hashing both
with coercion type Float64 — a type the claim's universal quantifier ranges
over — yields different hashcodes. -/
theorem c7_counterexample :
    NullsafeCompare intEnv ⟨.VarChar, "1"⟩ ⟨.VarChar, "2"⟩ 1 = .ok 0 ∧
    NullsafeHashcode intEnv ⟨.VarChar, "1"⟩ 1 .Float64 = .ok (2 ^ 63 + 1) ∧
    NullsafeHashcode intEnv ⟨.VarChar, "2"⟩ 1 .Float64 = .ok (2 ^ 63 + 2) ∧
    (2 ^ 63 + 1 : Nat) ≠ 2 ^ 63 + 2 :=
  ⟨rfl, by decide, by decide, by decide⟩

/-- Witness for C7: Int64 "1" and Uint64 "1" coerce to Uint64, compare equal
at collation 0, and both hash to 1 at that coercion type. -/
theorem c7_compare_hash_witness :
    CoerceTo SQLType.Int64 SQLType.Uint64 = .ok .Uint64 ∧
    NullsafeCompare intEnv ⟨.Int64, "1"⟩ ⟨.Uint64, "1"⟩ 0 = .ok 0 ∧
    NullsafeHashcode intEnv ⟨.Int64, "1"⟩ 0 .Uint64 = .ok 1 ∧
    NullsafeHashcode intEnv ⟨.Uint64, "1"⟩ 0 .Uint64 = .ok 1 ∧
    (1 : Nat) = 1 :=
  ⟨rfl, rfl, rfl, rfl,
    c7_compare_hash intEnv ⟨.Int64, "1"⟩ ⟨.Uint64, "1"⟩ 0 .Uint64 1 1 rfl rfl rfl rfl⟩

/-- C2 (amended): the sort is not stable, but its error handling is as
specified: when the dispatch itself succeeds and an order-by is present, the
sort's captured comparator error (or clean result) is what the caller sees. -/
theorem c2_sort_error_propagation (e : Env) (route : Route e) (vc : VCursor e)
    (bindVars : Binds) (wantfields : Bool) (rss : List ResolvedShard)
    (bvs : List Binds) (result : SQLResult)
    (hp : routeParams e route vc bindVars = .ok (rss, bvs))
    (hn : 0 < rss.length)
    (hm : vc.executeMultiShard rss (getQueries route.Query bvs) false false = (result, none))
    (hob : route.OrderBy.isEmpty = false) :
    (∀ er, (Route.sort e route result).2 = some er →
       TryExecute e route vc bindVars wantfields = ⟨none, some er, [], 0⟩) ∧
    ((Route.sort e route result).2 = none →
       TryExecute e route vc bindVars wantfields =
         ⟨some ((Route.sort e route result).1.Truncate route.TruncateColumnCount),
           none, [], 0⟩) := by
  have hout : executeInternal e route vc bindVars wantfields =
      ⟨some (Route.sort e route result).1, (Route.sort e route result).2, [], 0⟩ := by
    unfold executeInternal
    rw [hp]
    simp only []
    rw [if_neg (by omega : ¬ rss.length = 0), hm]
    simp only [hob]
    rw [if_neg (by decide)]
  constructor
  · intro er hs
    unfold TryExecute
    rw [hout]
    simp only [hs]
  · intro hs
    unfold TryExecute
    rw [hout]
    simp only [hs]

/-- C2 counterexample: two distinct rows comparing equal under the order-by
comparator come back in reversed order from the blocking sort, with no error. -/
theorem c2_counterexample :
    obpCompare intEnv obpCol0Asc c2rowA c2rowB = .ok 0 ∧
    obpCompare intEnv obpCol0Asc c2rowB c2rowA = .ok 0 ∧
    c2route.OrderBy = [obpCol0Asc] ∧
    c2rowA ≠ c2rowB ∧
    Route.sort intEnv c2route { Rows := [c2rowA, c2rowB] } =
      ({ Rows := [c2rowB, c2rowA] }, none) :=
  ⟨rfl, rfl, rfl, by decide, rfl⟩

/-- Witness for C2: a clean two-shard scatter whose rows the column-0
comparator cannot compare; the captured comparator error surfaces as the
call's error with no result. -/
theorem c2_sort_error_propagation_witness :
    routeParams intEnv c2route c2wvc [] = .ok (c1shards, [[], []]) ∧
    0 < c1shards.length ∧
    c2wvc.executeMultiShard c1shards (getQueries c2route.Query [[], []]) false false =
      (c2errResult, none) ∧
    c2route.OrderBy.isEmpty = false ∧
    TryExecute intEnv c2route c2wvc [] false =
      ⟨none, some (.unimplementedTypes .Date .VarChar), [], 0⟩ :=
  ⟨rfl, by decide, rfl, rfl,
    (c2_sort_error_propagation intEnv c2route c2wvc [] false c1shards [[], []]
        c2errResult rfl (by decide) rfl rfl).1
      (.unimplementedTypes .Date .VarChar) rfl⟩

/-- C1 (amended): the scatter error policy of the blocking execute, with the
order-by caveat: demoted warnings and the partial-success increment are
recorded, but the result/error pair additionally depends on the order-by
sort; without warnings demotion the errors aggregate into the call's error. -/
theorem c1_scatter_policy (e : Env) (route : Route e) (vc : VCursor e)
    (bindVars : Binds) (wantfields : Bool) (rss : List ResolvedShard)
    (bvs : List Binds) (result : SQLResult) (errsRaw : List (Option Err))
    (hp : routeParams e route vc bindVars = .ok (rss, bvs))
    (hn : 0 < rss.length)
    (hm : vc.executeMultiShard rss (getQueries route.Query bvs) false false =
      (result, some errsRaw)) :
    (route.ScatterErrorsAsWarnings = true →
      (filterOutNilErrors errsRaw).length ≠ rss.length →
      (TryExecute e route vc bindVars wantfields).warnings =
        (filterOutNilErrors errsRaw).map errToWarning ∧
      (TryExecute e route vc bindVars wantfields).partialIncr = 1 ∧
      (route.OrderBy.isEmpty = true →
        TryExecute e route vc bindVars wantfields =
          ⟨some (result.Truncate route.TruncateColumnCount), none,
            (filterOutNilErrors errsRaw).map errToWarning, 1⟩) ∧
      (route.OrderBy.isEmpty = false →
        (TryExecute e route vc bindVars wantfields).err = (Route.sort e route result).2)) ∧
    ((route.ScatterErrorsAsWarnings = false ∨
        (filterOutNilErrors errsRaw).length = rss.length) →
      TryExecute e route vc bindVars wantfields =
        ⟨none, aggregateErrs (filterOutNilErrors errsRaw), [], 0⟩) := by
  have h1 : executeInternal e route vc bindVars wantfields =
      (if !route.ScatterErrorsAsWarnings ||
          (filterOutNilErrors errsRaw).length = rss.length then
        match aggregateErrs (filterOutNilErrors errsRaw) with
        | some err => ⟨none, some err, [], 0⟩
        | none => ⟨none, none, [], 0⟩
       else if route.OrderBy.isEmpty then
        ⟨some result, none, (filterOutNilErrors errsRaw).map errToWarning, 1⟩
       else
        ⟨some (Route.sort e route result).1, (Route.sort e route result).2,
          (filterOutNilErrors errsRaw).map errToWarning, 1⟩) := by
    unfold executeInternal
    rw [hp]
    simp only []
    rw [if_neg (by omega : ¬ rss.length = 0), hm]
  constructor
  · intro hw hk
    have hc : ¬((!route.ScatterErrorsAsWarnings ||
        (filterOutNilErrors errsRaw).length = rss.length : Bool) = true) := by
      rw [hw]
      simpa using hk
    rw [if_neg hc] at h1
    cases hob : route.OrderBy.isEmpty with
    | true =>
      rw [if_pos (by rw [hob])] at h1
      have hT : TryExecute e route vc bindVars wantfields =
          ⟨some (result.Truncate route.TruncateColumnCount), none,
            (filterOutNilErrors errsRaw).map errToWarning, 1⟩ := by
        unfold TryExecute
        rw [h1]
      rw [hT]
      exact ⟨rfl, rfl, fun _ => rfl, fun h => absurd h (by decide)⟩
    | false =>
      rw [if_neg (by rw [hob]; decide)] at h1
      cases hs : (Route.sort e route result).2 with
      | none =>
        rw [hs] at h1
        have hT : TryExecute e route vc bindVars wantfields =
            ⟨some ((Route.sort e route result).1.Truncate route.TruncateColumnCount),
              none, (filterOutNilErrors errsRaw).map errToWarning, 1⟩ := by
          unfold TryExecute
          rw [h1]
        rw [hT]
        exact ⟨rfl, rfl, fun h => absurd h (by decide), fun _ => rfl⟩
      | some er =>
        rw [hs] at h1
        have hT : TryExecute e route vc bindVars wantfields =
            ⟨none, some er,
              (filterOutNilErrors errsRaw).map errToWarning, 1⟩ := by
          unfold TryExecute
          rw [h1]
        rw [hT]
        exact ⟨rfl, rfl, fun h => absurd h (by decide), fun _ => rfl⟩
  · intro hor
    have hc : (!route.ScatterErrorsAsWarnings ||
        (filterOutNilErrors errsRaw).length = rss.length : Bool) = true := by
      rcases hor with h | h
      · simp [h]
      · simp [h]
    rw [if_pos hc] at h1
    cases ha : aggregateErrs (filterOutNilErrors errsRaw) with
    | none =>
      rw [ha] at h1
      simp only [] at h1
      have hT : TryExecute e route vc bindVars wantfields = ⟨none, none, [], 0⟩ := by
        unfold TryExecute
        rw [h1]
      exact hT
    | some er =>
      rw [ha] at h1
      simp only [] at h1
      have hT : TryExecute e route vc bindVars wantfields = ⟨none, some er, [], 0⟩ := by
        unfold TryExecute
        rw [h1]
      exact hT

/-- C1 counterexample: scatter_errors_as_warnings is set, one of two shards
fails (so one succeeds), yet the call returns no Result and a non-nil error,
because the order-by sort fails on the partial rows; the warning and the
partial-success increment are still recorded. -/
theorem c1_counterexample :
    c1route.ScatterErrorsAsWarnings = true ∧
    c1shards.length = 2 ∧
    (filterOutNilErrors [some (.shard "shard 80- is down"), none]).length = 1 ∧
    TryExecute intEnv c1route c1vc [] false =
      ⟨none, some (.unimplementedTypes .Date .VarChar),
        [⟨1105, "shard 80- is down"⟩], 1⟩ :=
  ⟨rfl, rfl, rfl, rfl⟩

/-- Witness for C1: the plain partial-success scatter (no order-by): one
failure of two shards is demoted to a warning, the partial result returns
with no error, and the partial-success counter is incremented once. -/
theorem c1_scatter_policy_witness :
    routeParams intEnv c1wroute c1wvc [] = .ok (c1shards, [[], []]) ∧
    0 < c1shards.length ∧
    c1wvc.executeMultiShard c1shards (getQueries c1wroute.Query [[], []]) false false =
      (c1wresult, some [none, some (.shard "shard 80- is down")]) ∧
    c1wroute.ScatterErrorsAsWarnings = true ∧
    (filterOutNilErrors [none, some (.shard "shard 80- is down")]).length ≠ c1shards.length ∧
    c1wroute.OrderBy.isEmpty = true ∧
    TryExecute intEnv c1wroute c1wvc [] false =
      ⟨some (c1wresult.Truncate c1wroute.TruncateColumnCount), none,
        [⟨1105, "shard 80- is down"⟩], 1⟩ := by
  have h := (c1_scatter_policy intEnv c1wroute c1wvc [] false c1shards [[], []]
      c1wresult [none, some (.shard "shard 80- is down")] rfl (by decide) rfl).1
      rfl (by decide)
  exact ⟨rfl, by decide, rfl, rfl, by decide, rfl, by rw [h.2.2.1 rfl]; rfl⟩

/-- Appending a value to its shard group only adds that value to the
flattened key multiset. -/
theorem addToGroups_join (s : ResolvedShard) (v : Value)
    (gs : List (ResolvedShard × List Value)) :
    List.Perm ((addToGroups s v gs).map Prod.snd).join
      ((gs.map Prod.snd).join ++ [v]) := by
  induction gs with
  | nil => simp [addToGroups]
  | cons g rest ih =>
    unfold addToGroups
    by_cases hg : g.1 = s
    · rw [if_pos hg]
      simp only [List.map_cons, List.join_cons, List.append_assoc]
      exact List.Perm.append_left g.2 (List.perm_append_comm)
    · rw [if_neg hg]
      simp only [List.map_cons, List.join_cons, List.append_assoc]
      exact List.Perm.append_left g.2 ih

/-- Folding pairs into groups: the flattened key multiset is the keys folded
so far, as a permutation. -/
theorem groupPairs_join (resolve : Destination → ResolvedShard)
    (pairs : List (Value × Destination)) (acc : List (ResolvedShard × List Value)) :
    List.Perm ((groupPairs resolve pairs acc).map Prod.snd).join
      ((acc.map Prod.snd).join ++ pairs.map Prod.fst) := by
  induction pairs generalizing acc with
  | nil => simp [groupPairs]
  | cons p rest ih =>
    unfold groupPairs
    refine (ih (addToGroups (resolve p.2) p.1 acc)).trans ?_
    simp only [List.map_cons]
    refine ((addToGroups_join (resolve p.2) p.1 acc).append_right (rest.map Prod.fst)).trans ?_
    rw [List.append_assoc]
    exact List.Perm.refl _

/-- Every value in a folded group satisfies any property carried by its own
pair's resolved shard. -/
theorem addToGroups_mem (Q : ResolvedShard → Value → Prop) (s : ResolvedShard)
    (v : Value) (gs : List (ResolvedShard × List Value))
    (hacc : ∀ g ∈ gs, ∀ w ∈ g.2, Q g.1 w) (hv : Q s v) :
    ∀ g ∈ addToGroups s v gs, ∀ w ∈ g.2, Q g.1 w := by
  induction gs with
  | nil =>
    intro g hg w hw
    simp only [addToGroups, List.mem_singleton] at hg
    subst hg
    simp only [List.mem_singleton] at hw
    subst hw
    exact hv
  | cons g0 rest ih =>
    intro g hg w hw
    unfold addToGroups at hg
    by_cases h0 : g0.1 = s
    · rw [if_pos h0] at hg
      rcases List.mem_cons.mp hg with hg1 | hg2
      · subst hg1
        rcases List.mem_append.mp hw with hw1 | hw2
        · exact hacc g0 (List.mem_cons_self _ _) w hw1
        · rw [List.mem_singleton] at hw2
          subst hw2
          rw [h0]
          exact hv
      · exact hacc g (List.mem_cons_of_mem _ hg2) w hw
    · rw [if_neg h0] at hg
      rcases List.mem_cons.mp hg with hg1 | hg2
      · subst hg1
        exact hacc g0 (List.mem_cons_self _ _) w hw
      · exact ih (fun g' hg' => hacc g' (List.mem_cons_of_mem _ hg')) g hg2 w hw

/-- Every value in the final groups satisfies the property of some pair that
resolves to that group's shard. -/
theorem groupPairs_mem (Q : ResolvedShard → Value → Prop)
    (resolve : Destination → ResolvedShard) (pairs : List (Value × Destination))
    (acc : List (ResolvedShard × List Value))
    (hacc : ∀ g ∈ acc, ∀ w ∈ g.2, Q g.1 w)
    (hp : ∀ p ∈ pairs, Q (resolve p.2) p.1) :
    ∀ g ∈ groupPairs resolve pairs acc, ∀ w ∈ g.2, Q g.1 w := by
  induction pairs generalizing acc with
  | nil =>
    intro g hg
    simp only [groupPairs] at hg
    exact hacc g hg
  | cons p rest ih =>
    intro g hg w hw
    unfold groupPairs at hg
    exact ih (addToGroups (resolve p.2) p.1 acc)
      (addToGroups_mem Q (resolve p.2) p.1 acc hacc (hp p (List.mem_cons_self _ _)))
      (fun q hq => hp q (List.mem_cons_of_mem _ hq)) g hg w hw

/-- C3: the IN fan-out: with the list resolved, the vindex mapping one destination
per key, and the resolver grouping keys by shard, the per-shard binds are the
base binds plus one ListVar tuple; the tuples' multiset union is the input
list; and each shard's tuple holds only keys the vindex mapped to it. -/
theorem c3_in_fanout (e : Env) (route : Route e) (vc : VCursor e) (bindVars : Binds)
    (resolve : Destination → ResolvedShard) (vals : List Value)
    (dests : List Destination)
    (hop : route.Opcode = .SelectIN)
    (h1 : route.Value.ResolveList bindVars = .ok vals)
    (h2 : route.Vindex vals = .ok dests)
    (hlen : dests.length = vals.length)
    (h3 : vc.resolveDestinations route.Keyspace.Name (vals.map ValueToProto) dests =
      .ok (specResolveDestinations resolve (vals.map ValueToProto) dests)) :
    routeParams e route vc bindVars = .ok
      ((specResolveDestinations resolve (vals.map ValueToProto) dests).1,
        ((specResolveDestinations resolve (vals.map ValueToProto) dests).2).map
          (fun vs => bindsSet bindVars ListVarName (.tuple vs))) ∧
    List.Perm ((specResolveDestinations resolve (vals.map ValueToProto) dests).2).join
      (vals.map ValueToProto) ∧
    (∀ g ∈ groupPairs resolve ((vals.map ValueToProto).zip dests) [],
      ∀ w ∈ g.2, ∃ d, (w, d) ∈ (vals.map ValueToProto).zip dests ∧ resolve d = g.1) := by
  refine ⟨?_, ?_, ?_⟩
  · unfold routeParams
    rw [hop]
    simp only []
    unfold paramsSelectIn
    rw [h1]
    simp only []
    unfold resolveShards
    rw [h2]
    simp only []
    rw [h3]
    cases hsd : specResolveDestinations resolve (vals.map ValueToProto) dests with
    | mk rss values => simp only [shardVars]
  · unfold specResolveDestinations
    simp only []
    refine (groupPairs_join resolve ((vals.map ValueToProto).zip dests) []).trans ?_
    simp only [List.map_nil, List.join_nil, List.nil_append]
    rw [List.map_fst_zip]
    rw [List.length_map, hlen]
  · exact groupPairs_mem
      (fun s w => ∃ d, (w, d) ∈ (vals.map ValueToProto).zip dests ∧ resolve d = s)
      resolve ((vals.map ValueToProto).zip dests) []
      (fun g hg => absurd hg (List.not_mem_nil g))
      (fun p hp => ⟨p.2, hp, rfl⟩)

/-- Witness for C3: a three-value IN list fanning out to two shards; the
spec-grouped resolver sends keys 1 and 3 to the first shard and key 2 to the
second, and the per-shard binds carry exactly those tuples. -/
theorem c3_in_fanout_witness :
    c3route.Opcode = .SelectIN ∧
    c3route.Value.ResolveList [] = .ok c3vals ∧
    c3route.Vindex c3vals = .ok c3dests ∧
    c3dests.length = c3vals.length ∧
    c3vc.resolveDestinations c3route.Keyspace.Name (c3vals.map ValueToProto) c3dests =
      .ok (specResolveDestinations c3resolve (c3vals.map ValueToProto) c3dests) ∧
    specResolveDestinations c3resolve (c3vals.map ValueToProto) c3dests =
      ([c3shard1, c3shard2],
        [[⟨.Int64, "1"⟩, ⟨.Int64, "3"⟩], [⟨.Int64, "2"⟩]]) ∧
    (routeParams intEnv c3route c3vc [] = .ok
      ((specResolveDestinations c3resolve (c3vals.map ValueToProto) c3dests).1,
        ((specResolveDestinations c3resolve (c3vals.map ValueToProto) c3dests).2).map
          (fun vs => bindsSet [] ListVarName (.tuple vs))) ∧
    List.Perm ((specResolveDestinations c3resolve (c3vals.map ValueToProto) c3dests).2).join
      (c3vals.map ValueToProto) ∧
    (∀ g ∈ groupPairs c3resolve ((c3vals.map ValueToProto).zip c3dests) [],
      ∀ w ∈ g.2, ∃ d, (w, d) ∈ (c3vals.map ValueToProto).zip c3dests ∧ c3resolve d = g.1)) :=
  ⟨rfl, rfl, rfl, rfl, rfl, rfl,
    c3_in_fanout intEnv c3route c3vc [] c3resolve c3vals c3dests rfl rfl rfl rfl rfl⟩
